import Mathlib

/-!
Verification of the boardroom proposal-deliberation workflow.

The repository contains two implementations of the proposal context:

* `src/unnamed/part_003` — a localStorage-backed `ProposalContext` holding the
  deliberation generator, stance assignment, vote generation, status updates and
  the info-request round.  Embedded below in namespace `Legacy`.
* `src/frontend/src/contexts/ProposalContext.tsx` — the API-backed variant that
  posts flat message records (with `round_number` / `is_conclusion` fields) to a
  REST backend.  Embedded below in namespace `Api`.

The agent roster comes from `src/frontend/src/contexts/AgentContext.tsx`.

`Math.random()` is modelled as a stream `u : Nat → Rat` of draws together with a
counter that is threaded through every call site in source order, so each call
consumes exactly one fresh element of the stream.  JavaScript numbers are
modelled as `Rat`.
-/

namespace Boardroom

/-- Proposal status enum, from the `Proposal` interface
(`ProposalContext.tsx` line 12; `part_003` line 11 lacks `executed`). -/
inductive Status
  | deliberating
  | voting
  | approved
  | rejected
  | pending_ceo
  | executed
deriving DecidableEq

/-- Risk tier enum from the `Proposal` interface. -/
inductive RiskTier
  | low
  | medium
  | high
deriving DecidableEq

/-- Ternary stance assigned to each participant (`part_003` line 142). -/
inductive Stance
  | approve
  | reject
  | abstain
deriving DecidableEq

/-- `Agent` interface from `AgentContext.tsx` lines 3-13. -/
structure Agent where
  name : String
  domain : String
  description : String
  active : Bool
  weight : Rat
  canExecute : Bool
  llmModel : Option String := none
  ragEnabled : Option Bool := none
  knowledgeBase : Option String := none
deriving DecidableEq

/-- `Proposal` interface from `ProposalContext.tsx` lines 7-18. -/
structure Proposal where
  id : String
  title : String
  domain : String
  description : String
  status : Status
  riskTier : RiskTier
  confidence : Rat
  createdAt : String
  proposer : Option String := none
  impactSummary : Option String := none
deriving DecidableEq

/-- The deliberation participant objects: the generators only read `name` and
`domain` of each roster entry (`part_003` lines 136-139 build plain
`\x7bname, domain\x7d` fallback objects of exactly this shape). -/
structure Participant where
  name : String
  domain : String
deriving DecidableEq

/-- `Conversation` interface from `part_003` lines 19-27; the optional fields
are `none` when the corresponding property is absent in the built object. -/
structure Conversation where
  agent : String
  domain : String
  message : String
  timestamp : String
  isChallenge : Option Bool := none
  isResponse : Option Bool := none
  evidence : Option String := none
deriving DecidableEq

/-- `Round` interface from `part_003` lines 29-34. -/
structure Round where
  round : Nat
  phase : String
  conversations : List Conversation
  conclusion : Option String := none
deriving DecidableEq

/-- Vote record produced by `generateVotes` (`part_003` lines 471-477). -/
structure Vote where
  agent : String
  domain : String
  vote : Stance
  rationale : String
  confidence : Rat
deriving DecidableEq

/-- A JavaScript record (string-keyed object) built by successive assignments,
modelled as the list of assignments in program order.  Reading a key returns
the value of the latest assignment to it, as in JS. -/
def recGet {α : Type} (m : List (String × α)) (key : String) : Option α :=
  (m.reverse.find? (fun e => e.1 == key)).map (fun e => e.2)

/-- The active deliberation roster: `agents.filter(a => a.active && a.domain !== 'ceo')`
(`part_003` line 135; `ProposalContext.tsx` line 199). -/
def activeNonCeo (agents : List Agent) : List Agent :=
  agents.filter (fun a => a.active && a.domain != "ceo")

/-- View of a roster agent as a deliberation participant. -/
def toParticipant (a : Agent) : Participant :=
  { name := a.name, domain := a.domain }

/-- `Math.floor(r * len)` used to pick a random element of an array, computed
on the rational's fields: for the draws `r` in `[0, 1)` produced by
`Math.random()` this is exactly the floor of `r * len`. -/
def jsFloorIndex (r : Rat) (len : Nat) : Nat :=
  ((r.num * (len : Int)) / (r.den : Int)).toNat

/-- JavaScript `toLowerCase()` on the ASCII domain keys: lower-case every
character (this is what `String.toLower` does). -/
def lowerStr (s : String) : String :=
  String.mk (s.data.map Char.toLower)

/-- Classification of a uniform draw into a stance:
`r > 0.4 ? 'approve' : (r > 0.2 ? 'reject' : 'abstain')` (`part_003` line 145). -/
def stanceOfDraw (r : Rat) : Stance :=
  if mkRat 2 5 < r then Stance.approve
  else if mkRat 1 5 < r then Stance.reject
  else Stance.abstain

/-- Stance assignment loop (`part_003` lines 142-146): one `Math.random()` draw
per participant, in roster order, assigned to the record under the
participant's domain.  Returns the assignment list and the next counter. -/
def assignStances (ps : List Participant) (u : Nat → Rat) (k : Nat) :
    List (String × Stance) × Nat :=
  match ps with
  | [] => ([], k)
  | p :: rest =>
    let s := stanceOfDraw (u k)
    let (m, k2) := assignStances rest u (k + 1)
    ((p.domain, s) :: m, k2)

/-- `updateProposalStatus` (`part_003` lines 103-104, `ProposalContext.tsx`
lines 188-196): unconditionally maps the requested status onto the matching
proposal.  There is no guard of any kind in the source. -/
def updateProposalStatus (proposals : List Proposal) (id : String) (st : Status) :
    List Proposal :=
  proposals.map (fun p => if p.id = id then { p with status := st } else p)

/-- Status lookup: first proposal with the given id. -/
def statusOf : List Proposal → String → Option Status
  | [], _ => none
  | p :: ps, pid => if p.id = pid then some p.status else statusOf ps pid

/-- The client-side store of `part_003`: the three React states
`proposals`, `deliberations`, `votes` (`part_003` lines 52-70). -/
structure Store where
  proposals : List Proposal
  deliberations : String → Option (List Round)
  votes : String → Option (List Vote)

/-- Keyed record update, as in `\x7b ...prev, [id]: v \x7d`. -/
def storeSet {α : Type} (f : String → Option α) (key : String) (v : α) :
    String → Option α :=
  fun x => if x = key then some v else f x

namespace Legacy

/-- One entry of the conversational template dictionary
(`part_003` lines 149-342): the five message categories of one domain. -/
structure TemplateSet where
  initial : List String
  challenge : List String
  agreement : List String
  suggestion : List String
  dissent : List String

/-- The five message categories used by `getMsg` (`part_003` line 352). -/
inductive MsgKind
  | initial
  | challenge
  | agreement
  | suggestion
  | dissent
deriving DecidableEq

/-- Category projection, `set[type]` in the source. -/
def pickKind (kind : MsgKind) (t : TemplateSet) : List String :=
  match kind with
  | MsgKind.initial => t.initial
  | MsgKind.challenge => t.challenge
  | MsgKind.agreement => t.agreement
  | MsgKind.suggestion => t.suggestion
  | MsgKind.dissent => t.dissent

/-- `templates.finance` (`part_003` lines 150-173). -/
def financeTpl (title : String) : TemplateSet :=
  { initial :=
      [ "I\x27ve reviewed the numbers for \"" ++ title ++ "\". The ROI looks promising, but we need to be careful with cash flow."
      , "From a financial perspective, \"" ++ title ++ "\" fits our Q3 goals, though the upfront cost is higher than I\x27d like."
      , "I\x27m analyzing the budget impact of \"" ++ title ++ "\". It\x27s a significant investment, so we need to ensure the returns are there." ]
  , challenge :=
      [ "I\x27m concerned about the hidden costs here. Have we accounted for maintenance?"
      , "The budget buffer seems too thin. What if we overrun?" ]
  , agreement :=
      [ "That\x27s a fair point. If the revenue projections hold, the cost is justified."
      , "I agree. The long-term savings outweigh the immediate expense." ]
  , suggestion :=
      [ "Suggestion: We should phase the investment over two quarters to reduce risk."
      , "I recommend we set strict spending caps on this initiative." ]
  , dissent :=
      [ "I cannot support this at the current price point. It pushes us into the red."
      , "The risks outweigh the rewards here. I recommend we request a revised budget."
      , "Disagreed. This allocation is better spent elsewhere." ] }

/-- `templates.hr` (`part_003` lines 174-197). -/
def hrTpl (title : String) : TemplateSet :=
  { initial :=
      [ "I\x27m looking at \"" ++ title ++ "\" from a talent perspective. It could really boost team morale."
      , "Reviewing \"" ++ title ++ "\" for cultural fit. We need to make sure our people are ready for this change."
      , "From an HR standpoint, \"" ++ title ++ "\" is interesting. It addresses some key employee feedback." ]
  , challenge :=
      [ "I\x27m worried about the training burden on the team. Do we have the bandwidth?"
      , "This might cause some friction if not communicated well." ]
  , agreement :=
      [ "You\x27re right. Change management will be critical here."
      , "I agree. If we support the team properly, this will be a big win." ]
  , suggestion :=
      [ "Suggestion: Let\x27s roll this out to a pilot group first to gauge reaction."
      , "I suggest we bundle this with a training workshop." ]
  , dissent :=
      [ "I don\x27t think the team is ready for this change. It will cause burnout."
      , "This proposal ignores our current hiring freeze constraints."
      , "I have to oppose. The cultural impact is too negative." ] }

/-- `templates.ops` (`part_003` lines 198-221). -/
def opsTpl (title : String) : TemplateSet :=
  { initial :=
      [ "Checking the operational feasibility of \"" ++ title ++ "\". It looks scalable, which is good."
      , "From an Ops view, \"" ++ title ++ "\" could streamline our workflows significantly."
      , "I\x27m assessing the implementation checks for \"" ++ title ++ "\". Efficiency is the name of the game." ]
  , challenge :=
      [ "The integration timeline looks too aggressive. Things always take longer."
      , "I\x27m concerned about the load on our current infrastructure." ]
  , agreement :=
      [ "Valid concern. We can pad the schedule to be safe."
      , "Agreed. Reliability has to be our top priority." ]
  , suggestion :=
      [ "Suggestion: We should automate the reporting for this to save time."
      , "I recommend a phased rollout to minimize downtime." ]
  , dissent :=
      [ "This is operational suicide. We don\x27t have the redundancy for this."
      , "The complexity here is too high. I vote no until we simplify."
      , "Opposed. This breaks our current SLA commitments." ] }

/-- `templates.legal` (`part_003` lines 222-245). -/
def legalTpl (title : String) : TemplateSet :=
  { initial :=
      [ "I\x27ve scanned \"" ++ title ++ "\" for compliance risks. It seems mostly standard, but there are a few clauses to watch."
      , "From Legal: \"" ++ title ++ "\" needs a tight contract to protect our IP."
      , "Reviewing the regulatory implications of \"" ++ title ++ "\". We play by the rules." ]
  , challenge :=
      [ "Are we sure we\x27re covered on the data privacy front here?"
      , "This exposes us to some liability if the vendor fails." ]
  , agreement :=
      [ "Good point. We can add an indemnity clause to handle that."
      , "I agree. Better safe than sorry." ]
  , suggestion :=
      [ "Suggestion: Let\x27s have external counsel review the final terms."
      , "I suggest a mandatory compliance check before go-live." ]
  , dissent :=
      [ "This is a compliance nightmare. I cannot sign off on this."
      , "Too much regulatory risk. We need to pause and reassess."
      , "Opposed due to potential GDPR violations." ] }

/-- `templates.sales` (`part_003` lines 246-269). -/
def salesTpl (title : String) : TemplateSet :=
  { initial :=
      [ "I love \"" ++ title ++ "\". This is exactly what our customers have been asking for!"
      , "From a Sales perspective, \"" ++ title ++ "\" could really help us close the Q4 gap."
      , "Evaluating the market potential of \"" ++ title ++ "\". It\x27s a competitive differentiator." ]
  , challenge :=
      [ "I\x27m not sure if the market is ready for this price point."
      , "Will this distract us from our core product offerings?" ]
  , agreement :=
      [ "That\x27s true, but the upsell potential is huge."
      , "I agree, we need to focus on the value proposition." ]
  , suggestion :=
      [ "Suggestion: Let\x27s create a bundle offer for early adopters."
      , "I recommend we get some customer testimonials during the beta." ]
  , dissent :=
      [ "Our customers won\x27t pay for this. It\x27s a waste of resources."
      , "This cannibalizes our existing premium tier. I\x27m voting no."
      , "Opposed. The market timing is all wrong." ] }

/-- `templates.security` (`part_003` lines 270-293). -/
def securityTpl (title : String) : TemplateSet :=
  { initial :=
      [ "I\x27m running a security assessment on \"" ++ title ++ "\". Data integrity is non-negotiable."
      , "From Security: \"" ++ title ++ "\" introduces some new attack vectors we need to secure."
      , "Reviewing the access controls for \"" ++ title ++ "\". We need to stay zero-trust." ]
  , challenge :=
      [ "This third-party integration makes me nervous about data leaks."
      , "We haven\x27t defined the encryption standards for this yet." ]
  , agreement :=
      [ "Fair. We can enforce end-to-end encryption to mitigate that."
      , "I agree. Security by design is the only way." ]
  , suggestion :=
      [ "Suggestion: Let\x27s require MFA for all admin evaluations of this."
      , "I suggest a penetration test before we go live." ]
  , dissent :=
      [ "Critical vulnerability identified. I\x27m blocking this immediately."
      , "We fail compliance usage standards with this tool. Opposed."
      , "Too risky. We can\x27t secure this properly." ] }

/-- `templates.procurement` (`part_003` lines 294-317). -/
def procurementTpl (title : String) : TemplateSet :=
  { initial :=
      [ "I\x27m looking at the vendor options for \"" ++ title ++ "\". We can probably negotiate a better rate."
      , "From Procurement: \"" ++ title ++ "\" aligns with our strategic sourcing goals."
      , "Analyzing the supply chain impact of \"" ++ title ++ "\". We need reliable partners." ]
  , challenge :=
      [ "This vendor has a history of delays. Can we trust them?"
      , "The contract terms are a bit rigid on cancellation." ]
  , agreement :=
      [ "True. We should have a backup vendor lined up just in case."
      , "I agree. We need flexibility in the SLA." ]
  , suggestion :=
      [ "Suggestion: Let\x27s push for a net-60 payment term."
      , "I suggest we consolidate this with our existing cloud contract." ]
  , dissent :=
      [ "Vendor failed our due diligence. I cannot approve."
      , "The pricing is 20% above market rate. Rejected."
      , "Opposed. We have better options in our approved supplier list." ] }

/-- `templates.product` (`part_003` lines 318-341). -/
def productTpl (title : String) : TemplateSet :=
  { initial :=
      [ "I\x27m excited about \"" ++ title ++ "\". It adds real value to our user journey."
      , "From Product: \"" ++ title ++ "\" fills a major gap in our roadmap."
      , "Reviewing the UX implications of \"" ++ title ++ "\". It needs to be intuitive." ]
  , challenge :=
      [ "Is this feature creep? We need to stay focused."
      , "I\x27m worried this will clutter the interface." ]
  , agreement :=
      [ "You\x27re right. We should keep the MVP simple."
      , "I agree. Usability testing will be crucial." ]
  , suggestion :=
      [ "Suggestion: Let\x27s A/B test the placement of this feature."
      , "I recommend we interview five key customers before building." ]
  , dissent :=
      [ "This doesn\x27t solve a real user problem. Opposed."
      , "It adds too much friction to the signup flow. I vote no."
      , "Rejected. It diverts focus from our Q1 OKRs." ] }

/-- The `fallback` template set (`part_003` lines 344-350). -/
def fallbackTpl (title : String) : TemplateSet :=
  { initial := ["I\x27m analyzing \"" ++ title ++ "\" against our strategic objectives."]
  , challenge := ["I have some reservations about the scope."]
  , agreement := ["That makes sense. I see the value."]
  , suggestion := ["Suggestion: Let\x27s proceed with caution."]
  , dissent := ["I have significant concerns and cannot support this."] }

/-- The template dictionary lookup `templates[key]` for the lowercased domain
key (`part_003` lines 149 and 353-354). -/
def templatesFor (title key : String) : Option TemplateSet :=
  if key == "finance" then some (financeTpl title)
  else if key == "hr" then some (hrTpl title)
  else if key == "ops" then some (opsTpl title)
  else if key == "legal" then some (legalTpl title)
  else if key == "sales" then some (salesTpl title)
  else if key == "security" then some (securityTpl title)
  else if key == "procurement" then some (procurementTpl title)
  else if key == "product" then some (productTpl title)
  else none

/-- `getMsg` (`part_003` lines 352-357): pick a random template of the given
category for the domain, consuming one draw.  Every template set defines every
category with a non-empty list, so the source's `set[type] || fallback[type] ||
fallback['agreement']` chain always resolves to `set[type]`. -/
def getMsg (title dom : String) (kind : MsgKind) (u : Nat → Rat) (k : Nat) :
    String × Nat :=
  let set := (templatesFor title (lowerStr dom)).getD (fallbackTpl title)
  let options := pickKind kind set
  (options.getD (jsFloorIndex (u k) options.length) "", k + 1)

/-- Round 1 "Initial Analysis" messages (`part_003` lines 360-372): one
`initial` message per participant, in roster order; index `i` feeds the
timestamp.  (The `stance` binding at line 364 is unused by the source.) -/
def round1Convs (title : String) (ps : List Participant) (i : Nat)
    (u : Nat → Rat) (k : Nat) : List Conversation × Nat :=
  match ps with
  | [] => ([], k)
  | p :: rest =>
    let (msg, k2) := getMsg title p.domain MsgKind.initial u k
    let c : Conversation :=
      { agent := p.name, domain := p.domain, message := msg
      , timestamp := "10:0" ++ toString i ++ " AM" }
    let (cs, k3) := round1Convs title rest (i + 1) u k2
    (c :: cs, k3)

/-- Round 2 "Challenge & Discussion" messages (`part_003` lines 373-404):
reject-stance agents give a `dissent` line and may attach evidence
(`Math.random() > 0.6`); abstain-stance agents give a fixed neutral line;
the remaining agents (including any agent missing from the stance record,
which JS routes to the `else` branch) give a `challenge`/`agreement` line by
index parity, optionally extended with a `suggestion` (`Math.random() > 0.5`)
and may attach evidence (`Math.random() > 0.7`). -/
def round2Convs (title : String) (stances : List (String × Stance))
    (ps : List Participant) (i : Nat) (u : Nat → Rat) (k : Nat) :
    List Conversation × Nat :=
  match ps with
  | [] => ([], k)
  | p :: rest =>
    let isCh := i % 2 == 0
    let ts := "10:1" ++ toString i ++ " AM"
    let (c, k4) : Conversation × Nat :=
      match recGet stances p.domain with
      | some Stance.reject =>
        let (t, k2) := getMsg title p.domain MsgKind.dissent u k
        let ev := if mkRat 3 5 < u k2 then some "Compliance Violation Report #402" else none
        ({ agent := p.name, domain := p.domain, message := t, timestamp := ts
         , isChallenge := some isCh, isResponse := some (!isCh), evidence := ev }, k2 + 1)
      | some Stance.abstain =>
        ({ agent := p.name, domain := p.domain
         , message := "I am currently neutral on this topic. I need to see more data before committing."
         , timestamp := ts, isChallenge := some isCh, isResponse := some (!isCh)
         , evidence := none }, k)
      | _ =>
        let mt := if isCh then MsgKind.challenge else MsgKind.agreement
        let (t1, k2) := getMsg title p.domain mt u k
        let (text, k3) :=
          if mkRat 1 2 < u k2 then
            let (sug, k3) := getMsg title p.domain MsgKind.suggestion u (k2 + 1)
            (t1 ++ " " ++ sug, k3)
          else (t1, k2 + 1)
        let ev := if mkRat 7 10 < u k3 then some "Q3 Performance Metrics" else none
        ({ agent := p.name, domain := p.domain, message := text, timestamp := ts
         , isChallenge := some isCh, isResponse := some (!isCh), evidence := ev }, k3 + 1)
    let (cs, k5) := round2Convs title stances rest (i + 1) u k4
    (c :: cs, k5)

/-- Round 3 "Risk Mitigation" messages (`part_003` lines 405-417): a fixed
domain-interpolated line per participant, with evidence attached when
`Math.random() > 0.5`. -/
def round3Convs (ps : List Participant) (i : Nat) (u : Nat → Rat) (k : Nat) :
    List Conversation × Nat :=
  match ps with
  | [] => ([], k)
  | p :: rest =>
    let c : Conversation :=
      { agent := p.name, domain := p.domain
      , message := "Addressing the concerns raised in Round 2. From " ++ p.domain ++ " view, we can mitigate risks by implementing stricter controls."
      , timestamp := "10:2" ++ toString i ++ " AM"
      , evidence := if mkRat 1 2 < u k then some "Risk Mitigation Plan v1.0" else none }
    let (cs, k3) := round3Convs rest (i + 1) u (k + 1)
    (c :: cs, k3)

/-- Round 4 "Cross-functional Alignment" messages (`part_003` lines 418-429):
a fixed domain-interpolated line per participant, no random draws, no
evidence. -/
def round4Convs (ps : List Participant) (i : Nat) : List Conversation :=
  match ps with
  | [] => []
  | p :: rest =>
    { agent := p.name, domain := p.domain
    , message := "We are seeing alignment across departments now. The proposed changes match our " ++ p.domain ++ " strategic goals for the next fiscal year."
    , timestamp := "10:3" ++ toString i ++ " AM" } :: round4Convs rest (i + 1)

/-- Round 5 "Final Synthesis" messages (`part_003` lines 430-452): the closing
line is keyed on the stance (approve consumes one draw for the appended
`agreement` template; a missing stance falls to the abstain line), and the
evidence draw `Math.random() > 0.8` is made for every participant. -/
def round5Convs (title : String) (stances : List (String × Stance))
    (ps : List Participant) (i : Nat) (u : Nat → Rat) (k : Nat) :
    List Conversation × Nat :=
  match ps with
  | [] => ([], k)
  | p :: rest =>
    let (text, k2) :=
      match recGet stances p.domain with
      | some Stance.approve =>
        let (ag, k2) := getMsg title p.domain MsgKind.agreement u k
        ("After 5 rounds of deliberation, I support moving forward. " ++ ag, k2)
      | some Stance.reject =>
        ("My concerns remain unaddressed. I am voting against this proposal.", k)
      | _ =>
        ("I do not have enough conviction to block or support. I will abstain.", k)
    let c : Conversation :=
      { agent := p.name, domain := p.domain, message := text
      , timestamp := "10:4" ++ toString i ++ " AM"
      , evidence := if mkRat 4 5 < u k2 then some "Final Sign-off Document" else none }
    let (cs, k4) := round5Convs title stances rest (i + 1) u (k2 + 1)
    (c :: cs, k4)

/-- The `generatedRounds` array (`part_003` lines 359-455): five rounds, with a
`conclusion` string only on round 5. -/
def generatedRounds (title : String) (stances : List (String × Stance))
    (ps : List Participant) (u : Nat → Rat) (k : Nat) : List Round × Nat :=
  let (c1, k1) := round1Convs title ps 0 u k
  let (c2, k2) := round2Convs title stances ps 0 u k1
  let (c3, k3) := round3Convs ps 0 u k2
  let c4 := round4Convs ps 0
  let (c5, k5) := round5Convs title stances ps 0 u k3
  ( [ { round := 1, phase := "Initial Analysis", conversations := c1 }
    , { round := 2, phase := "Challenge & Discussion", conversations := c2 }
    , { round := 3, phase := "Risk Mitigation", conversations := c3 }
    , { round := 4, phase := "Cross-functional Alignment", conversations := c4 }
    , { round := 5, phase := "Final Synthesis", conversations := c5
      , conclusion := some "After 5 rounds, the agents have reached a conclusion. Vote casting initiated." } ]
  , k5 )

/-- The stance-keyed vote rationale (`part_003` lines 464-469): the approve and
reject sentences interpolate the agent's domain; the abstain sentence is a
fixed string. -/
def voteRationale (st : Stance) (dom : String) : String :=
  match st with
  | Stance.approve => "Approved based on positive impact to " ++ dom ++ " metrics."
  | Stance.reject => "Rejected due to excessive risk/cost in " ++ dom ++ " area."
  | Stance.abstain => "Abstained due to lack of domain overlap or insufficient data."

/-- `generateVotes` (`part_003` lines 461-480): one vote per entry of the agent
list it is given (its caller at line 458 passes the whole roster, not the
active participants), with `stances[a.domain] || 'abstain'` as the vote and
`confidence = 0.6 + Math.random() * 0.35`. -/
def generateVotes (currentAgents : List Agent) (stances : List (String × Stance))
    (u : Nat → Rat) (k : Nat) : List Vote × Nat :=
  match currentAgents with
  | [] => ([], k)
  | a :: rest =>
    let st := (recGet stances a.domain).getD Stance.abstain
    let v : Vote :=
      { agent := a.name, domain := a.domain, vote := st
      , rationale := voteRationale st a.domain
      , confidence := mkRat 3 5 + u k * mkRat 7 20 }
    let (vs, k2) := generateVotes rest stances u (k + 1)
    (v :: vs, k2)

/-- The fallback roster used when no active non-CEO agent exists
(`part_003` lines 136-139). -/
def fallbackParticipants : List Participant :=
  [ { name := "Finance Agent", domain := "Finance" }
  , { name := "HR Agent", domain := "HR" } ]

/-- The effective roster of `generateDeliberation` (`part_003` lines 135-139). -/
def effectiveParticipants (agents : List Agent) : List Participant :=
  let aps := activeNonCeo agents
  if aps.isEmpty then fallbackParticipants else aps.map toParticipant

/-- `generateDeliberation` (`part_003` lines 132-459): guard on an existing
deliberation, stance assignment, the five generated rounds, and
`generateVotes(proposal.id, agents, stances)` over the whole roster. -/
def generateDeliberation (s : Store) (agents : List Agent) (proposal : Proposal)
    (u : Nat → Rat) : Store :=
  match s.deliberations proposal.id with
  | some _ => s
  | none =>
    let ps := effectiveParticipants agents
    let (stances, k1) := assignStances ps u 0
    let (rounds, k2) := generatedRounds proposal.title stances ps u k1
    let (vs, _) := generateVotes agents stances u k2
    { s with deliberations := storeSet s.deliberations proposal.id rounds
           , votes := storeSet s.votes proposal.id vs }

/-- The caller-supplied fields of a new proposal (`part_003` line 40/82). -/
structure NewProposalData where
  title : String
  domain : String
  description : String
  impactSummary : Option String := none

/-- The `newProposal` object built by `addProposal` (`part_003` lines 83-91):
fixed status/risk/confidence defaults, derived id and proposer, and the
ambient date string. -/
def newProposalOf (proposals : List Proposal) (today : String)
    (d : NewProposalData) : Proposal :=
  { id := "P-00" ++ toString (proposals.length + 1)
  , title := d.title, domain := d.domain, description := d.description
  , status := Status.deliberating
  , riskTier := RiskTier.medium
  , confidence := mkRat 3 4
  , createdAt := today
  , proposer := some (d.domain ++ " Agent")
  , impactSummary := d.impactSummary }

/-- `addProposal` (`part_003` lines 82-101): prepend the new proposal and
generate its deliberation. -/
def addProposal (s : Store) (agents : List Agent) (today : String)
    (d : NewProposalData) (u : Nat → Rat) : Store :=
  let np := newProposalOf s.proposals today d
  let s2 := { s with proposals := np :: s.proposals }
  generateDeliberation s2 agents np u

/-- `updateProposalStatus` lifted to the store (`part_003` lines 103-130; the
remainder of the source function only emits notifications). -/
def updateStatusStore (s : Store) (id : String) (st : Status) : Store :=
  { s with proposals := updateProposalStatus s.proposals id st }

/-- The four response templates of `addInfoRequest` (`part_003` lines 489-494). -/
def infoTemplates (query dom : String) : List String :=
  [ "Regarding \"" ++ query ++ "\": From a " ++ dom ++ " perspective, this additional context clarifies our position. We have updated our risk assessment accordingly."
  , "Thanks for the details on \"" ++ query ++ "\". This helps mitigate some of the " ++ dom ++ " risks I saw earlier."
  , "Understood. With the clarification on \"" ++ query ++ "\", I\x27m adjusting my confidence score upwards."
  , "This answer regarding \"" ++ query ++ "\" addresses my main concerns. I\x27m ready to proceed." ]

/-- The per-participant responses of `addInfoRequest` (`part_003` lines
487-504): one randomly chosen template per active participant, flagged
`isResponse`. -/
def infoResponses (query now : String) (aps : List Agent) (u : Nat → Rat)
    (k : Nat) : List Conversation × Nat :=
  match aps with
  | [] => ([], k)
  | a :: rest =>
    let tpls := infoTemplates query a.domain
    let msg := tpls.getD (jsFloorIndex (u k) tpls.length) ""
    let c : Conversation :=
      { agent := a.name, domain := a.domain, message := msg, timestamp := now
      , isResponse := some true }
    let (cs, k2) := infoResponses query now rest u (k + 1)
    (c :: cs, k2)

/-- `addInfoRequest` (`part_003` lines 482-528): append one round made of the
admin challenge message, the responses of every active non-CEO participant (no
fallback roster here) and a conclusion string, then transition the proposal to
`voting` (the source schedules that transition on a timer; the embedding takes
the state after it fires). -/
def addInfoRequest (s : Store) (agents : List Agent) (pid query now : String)
    (u : Nat → Rat) (k : Nat) : Store :=
  let currentRounds := (s.deliberations pid).getD []
  let nextRoundNum := currentRounds.length + 1
  let aps := activeNonCeo agents
  let (responses, _) := infoResponses query now aps u k
  let adminConv : Conversation :=
    { agent := "User (Admin)", domain := "admin"
    , message := "REQUEST FOR INFO: " ++ query, timestamp := now
    , isChallenge := some true }
  let newRound : Round :=
    { round := nextRoundNum, phase := "Clarification & Re-evaluation"
    , conversations := adminConv :: responses
    , conclusion := some ("The council has reviewed the additional information regarding \"" ++ query ++ "\". Proceeding to final vote.") }
  let s2 := { s with deliberations := storeSet s.deliberations pid (currentRounds ++ [newRound]) }
  updateStatusStore s2 pid Status.voting

end Legacy

namespace Api

/-- One message record as posted to `/proposals/messages/`
(`ProposalContext.tsx` lines 302-314, 318-326, 348-355, 364-371, 374-381).
`is_conclusion` and the metadata flags default to `false` when the posted
object omits them. -/
structure Msg where
  proposal : String
  agent_name : String
  agent_domain : String
  message : String
  round_number : Nat
  is_conclusion : Bool := false
  isChallenge : Bool := false
  isResponse : Bool := false
  evidence : Option String := none
  source : Option String := none
deriving DecidableEq

/-- `deliberationTemplates` (`ProposalContext.tsx` lines 211-247): five fixed
lines per known domain, one per round. -/
def deliberationTemplates (dom : String) : Option (List String) :=
  if dom == "finance" then some
    [ "I\x27ve analyzed the budget impact. We have sufficient runway for this."
    , "ROI projections look promising, assuming a 12-month payback period."
    , "We should consider the tax implications of this reallocation."
    , "I suggest we tighten the cost controls for this initiative."
    , "Financially sound. I\x27m ready to move to a vote." ]
  else if dom == "hr" then some
    [ "From a talent perspective, this aligns with our growth strategy."
    , "We need to ensure we have the right skillset for implementation."
    , "This could impact employee retention positively if handled well."
    , "I suggest we include a training module for the affected teams."
    , "HR supports this. The cultural fit is strong." ]
  else if dom == "ops" then some
    [ "Operations can support this transition with minimal downtime."
    , "We should optimize the supply chain workflow for this project."
    , "Scalability check: Our current infrastructure can handle a 20% load increase."
    , "I suggest a phased rollout to mitigate operational risks."
    , "Operational readiness confirmed. Proceed." ]
  else if dom == "security" then some
    [ "Security audit required. Initial assessment shows low risk."
    , "We must ensure compliance with data protection regulations."
    , "I suggest encrypting all transaction logs for this service."
    , "Firewall rules updated. Monitoring systems are in place."
    , "Security protocols met. No objections." ]
  else if dom == "legal" then some
    [ "Reviewing contract terms. Standard clauses seem applicable."
    , "Regulatory compliance check: No conflicts with existing laws."
    , "I suggest adding an indemnity clause for vendor interactions."
    , "Drafting final approval documents. All legal bases covered."
    , "Legally cleared. Ready for execution." ]
  else none

/-- The per-round default templates used for unknown domains
(`ProposalContext.tsx` lines 288-294). -/
def defaultTemplates (round : Nat) (agentName : String) : List String :=
  [ "Reviewing round " ++ toString round ++ " details."
  , "I suggest we keep monitoring the progress."
  , "Supporting the current direction."
  , "Agent " ++ agentName ++ " is satisfied with the results."
  , "Final review round complete." ]

/-- The `conclusions` array (`ProposalContext.tsx` lines 249-255). -/
def conclusions : List String :=
  [ "Initial consensus reached. Moving to detailed impact assessment."
  , "Risk mitigation strategies identified. Proceeding to final review."
  , "Counsel has reached a majority agreement on technical feasibility."
  , "Counter-arguments addressed. Finalizing executive summary."
  , "Deliberation complete. Proposal reaches unified consensus for voting." ]

/-- `evidenceLibrary` (`ProposalContext.tsx` lines 257-283), as
(source, excerpt) pairs per domain. -/
def evidenceLibrary (dom : String) : Option (List (String × String)) :=
  if dom == "finance" then some
    [ ("Q1 Budget Analysis", "Current runway exceeds projections by 20% due to OPEX optimization.")
    , ("Tax Compliance Audit", "Reallocation of funds between business units is compliant with local regulations.")
    , ("ROI Projection v2.1", "Expected payback period is 14 months with a 2.5x multiplier on initial investment.") ]
  else if dom == "hr" then some
    [ ("Retention Survey 2024", "85% of employees cited \"Growth Opportunities\" as their top priority.")
    , ("Market Salary Index", "Standard roles in this sector have seen a 12% increase in salary expectations.")
    , ("Skills Gap Analysis", "Current team has 60% coverage for required implementation technologies.") ]
  else if dom == "ops" then some
    [ ("Supply Chain Log", "Lead times for hardware acquisition currently average 45 days.")
    , ("Infrastructure Health", "Current server load is at 88% capacity during peak hours.")
    , ("SLA Performance Report", "Average uptime for critical systems maintained at 99.98% over last quarter.") ]
  else if dom == "security" then some
    [ ("Vulnerability Assessment", "Zero critical vulnerabilities found in the last penetration test of core services.")
    , ("Compliance ISO27001", "Section 5.2 - Access controls are fully aligned with industry best practices.")
    , ("Threat Intelligence Feed", "No active exploits detected targeting our current stack in the last 30 days.") ]
  else if dom == "legal" then some
    [ ("Master Service Agreement", "Section 12.4 - Liability is clearly defined and capped at $500k.")
    , ("IP Registry", "Proposed feature name search returned no existing trademarks in relevant jurisdictions.")
    , ("Regulatory Update (Jan 24)", "Compliance requirements for data residency are met by our current AWS region.") ]
  else none

/-- The evidence selection of `generateDeliberation`
(`ProposalContext.tsx` lines 296-300): `evidenceLibrary[domain][round === 2 ? 0
 : 1]` for rounds 2 and 4 only, `null` otherwise. -/
def selectEvidence (round : Nat) (dom : String) : Option (String × String) :=
  if round == 2 || round == 4 then
    match evidenceLibrary dom with
    | some lib => lib.get? (if round == 2 then 0 else 1)
    | none => none
  else none

/-- One agent message of `generateDeliberation` (`ProposalContext.tsx` lines
286-315): the round's domain template (default templates for unknown
domains), evidence for rounds 2/4, and the round-3 challenge draw
`round === 3 && Math.random() > 0.7` - the only `Math.random()` call, made
when the round is 3. -/
def apiMessage (pid : String) (round : Nat) (a : Participant) (u : Nat → Rat)
    (k : Nat) : Msg × Nat :=
  let dom := lowerStr a.domain
  let tpls := (deliberationTemplates dom).getD (defaultTemplates round a.name)
  let evidence := selectEvidence round dom
  let (isCh, k2) : Bool × Nat :=
    if round == 3 then (decide (mkRat 7 10 < u k), k + 1) else (false, k)
  ( { proposal := pid, agent_name := a.name, agent_domain := a.domain
    , message := (tpls.get? (round - 1)).getD ((tpls.get? 0).getD "")
    , round_number := round, is_conclusion := false
    , isChallenge := isCh
    , evidence := evidence.map (fun e => e.2)
    , source := evidence.map (fun e => e.1) }
  , k2 )

/-- The inner `participants.forEach` of one round (`ProposalContext.tsx` lines
286-315): one message per participant, in roster order. -/
def roundMsgs (pid : String) (round : Nat) (ps : List Participant)
    (u : Nat → Rat) (k : Nat) : List Msg × Nat :=
  match ps with
  | [] => ([], k)
  | a :: rest =>
    let (m, k2) := apiMessage pid round a u k
    let (ms, k3) := roundMsgs pid round rest u k2
    (m :: ms, k3)

/-- The round conclusion message (`ProposalContext.tsx` lines 317-326):
authored by `Council Lead` with domain `system` and `is_conclusion` set. -/
def conclusionMsg (pid : String) (round : Nat) : Msg :=
  { proposal := pid, agent_name := "Council Lead", agent_domain := "system"
  , message := (conclusions.get? (round - 1)).getD ""
  , round_number := round, is_conclusion := true }

/-- The outer `for round = 1..roundsCount` loop (`ProposalContext.tsx` lines
285-327): each round pushes the participant messages then the conclusion. -/
def roundsMsgs (pid : String) (rounds : List Nat) (ps : List Participant)
    (u : Nat → Rat) (k : Nat) : List Msg × Nat :=
  match rounds with
  | [] => ([], k)
  | r :: rest =>
    let (ms, k2) := roundMsgs pid r ps u k
    let (tailMsgs, k3) := roundsMsgs pid rest ps u k2
    (ms ++ conclusionMsg pid r :: tailMsgs, k3)

/-- The fallback roster of the API variant (`ProposalContext.tsx` lines
200-206). -/
def fallbackParticipants : List Participant :=
  [ { name := "Finance Agent", domain := "finance" }
  , { name := "HR Agent", domain := "hr" }
  , { name := "Ops Agent", domain := "ops" }
  , { name := "Security Agent", domain := "security" }
  , { name := "Legal Agent", domain := "legal" } ]

/-- The effective roster of the API `generateDeliberation`
(`ProposalContext.tsx` lines 199-206). -/
def participantsOf (agents : List Agent) : List Participant :=
  let aps := activeNonCeo agents
  if aps.isEmpty then fallbackParticipants else aps.map toParticipant

/-- `generateDeliberation` (`ProposalContext.tsx` lines 198-341): the batch of
messages posted for rounds 1..5 and the `voting` status patched afterwards. -/
def generateDeliberation (agents : List Agent) (pid : String) (u : Nat → Rat) :
    List Msg × Status :=
  let ps := participantsOf agents
  let (msgs, _) := roundsMsgs pid [1, 2, 3, 4, 5] ps u 0
  (msgs, Status.voting)

/-- The fallback roster of the API `addInfoRequest`
(`ProposalContext.tsx` lines 358-361). -/
def infoFallbackParticipants : List Participant :=
  [ { name := "Finance Agent", domain := "finance" }
  , { name := "Ops Agent", domain := "ops" } ]

/-- `addInfoRequest` (`ProposalContext.tsx` lines 343-388): for the next round
number, post one admin challenge message, one response per participant, one
conclusion, then patch the status to `voting`. -/
def addInfoRequest (currentRoundCount : Nat) (agents : List Agent)
    (pid query : String) : List Msg × Status :=
  let nextRound := currentRoundCount + 1
  let aps := activeNonCeo agents
  let ps := if aps.isEmpty then infoFallbackParticipants else aps.map toParticipant
  let adminMsg : Msg :=
    { proposal := pid, agent_name := "User (Admin)", agent_domain := "admin"
    , message := "QUERY: " ++ query, round_number := nextRound
    , isChallenge := true }
  let respMsg : Participant → Msg := fun a =>
    { proposal := pid, agent_name := a.name, agent_domain := a.domain
    , message := "Response to \"" ++ query ++ "\": We have reviewed the data and suggest proceeding with the original plan with minor adjustments."
    , round_number := nextRound, isResponse := true }
  let conclMsg : Msg :=
    { proposal := pid, agent_name := "Council Lead", agent_domain := "system"
    , message := "Final consensus reached after query. Moving to voting phase."
    , round_number := nextRound, is_conclusion := true }
  (adminMsg :: ps.map respMsg ++ [conclMsg], Status.voting)

end Api

/-- `toggleAgent` (`AgentContext.tsx` lines 58-60): flip the `active` flag of
the agents whose domain matches. -/
def toggleAgent (agents : List Agent) (dom : String) : List Agent :=
  agents.map (fun a => if a.domain = dom then { a with active := !a.active } else a)

/-- The combined client state: the agent roster of `AgentContext` next to the
proposal store of `ProposalContext`.  The two contexts hold disjoint React
states; `toggleAgent` only ever calls `setAgents`. -/
structure AppState where
  agents : List Agent
  store : Store

/-- `toggleAgent` lifted to the whole client state. -/
def toggleAgentApp (st : AppState) (dom : String) : AppState :=
  { st with agents := toggleAgent st.agents dom }

/-- Whether `needle` occurs as a contiguous run of `haystack`. -/
def subListAux (needle : List Char) : List Char → Bool
  | [] => needle.isEmpty
  | c :: rest => needle.isPrefixOf (c :: rest) || subListAux needle rest

/-- Whether the string `sub` occurs inside `s`: the formal reading of a
sentence "referencing" a domain name. -/
def mentionsSub (s sub : String) : Bool :=
  subListAux sub.data s.data

/-- Seed proposal `P-001` (`part_003` line 55), already `approved`. -/
def seedP1 : Proposal :=
  { id := "P-001", title := "Q1 Budget Reallocation", domain := "Finance"
  , description := "Proposal to reallocate $50,000 from unused training budget to marketing initiatives for Q1 campaign."
  , status := Status.approved, riskTier := RiskTier.medium
  , confidence := mkRat 92 100, createdAt := "2024-01-15"
  , proposer := some "Finance Agent" }

/-- Seed proposal `P-003` (`part_003` line 57), still `deliberating`. -/
def seedP3 : Proposal :=
  { id := "P-003", title := "Inventory Optimization", domain := "Ops"
  , description := "Implementation of AI-driven inventory management system to reduce holding costs by 12%."
  , status := Status.deliberating, riskTier := RiskTier.medium
  , confidence := mkRat 78 100, createdAt := "2024-01-17"
  , proposer := some "Ops Agent" }

/-- A store holding only `P-003` with no deliberation generated yet:
`deliberations["P-003"]` is absent, i.e. the round count is `0`. -/
def storeP3 : Store :=
  { proposals := [seedP3], deliberations := fun _ => none, votes := fun _ => none }

/-- A store holding only the terminal (`approved`) proposal `P-001`. -/
def storeP1 : Store :=
  { proposals := [seedP1], deliberations := fun _ => none, votes := fun _ => none }

/-- A constant random stream: every draw is `0.7`. -/
def uSeven : Nat → Rat := fun _ => mkRat 7 10

/-- A constant random stream: every draw is `0.5`. -/
def uHalf : Nat → Rat := fun _ => mkRat 1 2

/-- A constant random stream: every draw is `0`. -/
def uZero : Nat → Rat := fun _ => mkRat 0 1

/-- A small proposal used to evaluate the generators on concrete input. -/
def cxProposal : Proposal :=
  { id := "P-100", title := "T", domain := "Finance", description := "d"
  , status := Status.deliberating, riskTier := RiskTier.medium
  , confidence := mkRat 3 4, createdAt := "2024-01-01" }

/-- An empty store. -/
def emptyStore : Store :=
  { proposals := [cxProposal], deliberations := fun _ => none, votes := fun _ => none }

/-- The concrete legacy run used by the counterexamples: an empty roster (so
the generator falls back to the Finance/HR pair) and the constant `0.7`
stream. -/
def cxRun : Store :=
  Legacy.generateDeliberation emptyStore [] cxProposal uSeven

/-- The rounds stored by the concrete legacy run. -/
def cxRounds : List Round :=
  (cxRun.deliberations "P-100").getD []

/-- The seeded Finance agent (`AgentContext.tsx` line 28), active. -/
def finAgentC : Agent :=
  { name := "Finance Agent", domain := "finance"
  , description := "Financial decisions and controls", active := true
  , weight := mkRat 3 2, canExecute := true, llmModel := some "gpt-4"
  , ragEnabled := some true, knowledgeBase := some "Financial Reports" }

/-- The seeded Sales agent (`AgentContext.tsx` line 30), inactive. -/
def salesAgentC : Agent :=
  { name := "Sales Agent", domain := "sales"
  , description := "Revenue and sales decisions", active := false
  , weight := mkRat 1 1, canExecute := false, llmModel := some "gpt-3.5-turbo"
  , ragEnabled := some false }

/-- The seeded HR agent (`AgentContext.tsx` line 27), active. -/
def hrAgentC : Agent :=
  { name := "HR Agent", domain := "hr"
  , description := "Workforce and HR decisions", active := true
  , weight := mkRat 1 1, canExecute := true, llmModel := some "gpt-4"
  , ragEnabled := some false }

/-- The roster of the spec scenario: Finance active, HR active, Ops
inactive. -/
def scenarioAgents : List Agent :=
  [ { name := "Finance Agent", domain := "Finance", description := "", active := true
    , weight := mkRat 1 1, canExecute := true }
  , { name := "HR Agent", domain := "HR", description := "", active := true
    , weight := mkRat 1 1, canExecute := true }
  , { name := "Ops Agent", domain := "Ops", description := "", active := false
    , weight := mkRat 1 1, canExecute := true } ]

/-- A client state for the toggle witness: the HR agent plus the `P-003`
store. -/
def appC : AppState :=
  { agents := [hrAgentC], store := storeP3 }

/-- The HR agent after one toggle. -/
def hrToggledC : Agent :=
  { hrAgentC with active := false }

/-- A proposal sitting at `voting` for the info-request witness. -/
def votingProposalC : Proposal :=
  { id := "P-200", title := "V", domain := "HR", description := "v"
  , status := Status.voting, riskTier := RiskTier.low
  , confidence := mkRat 85 100, createdAt := "2024-01-16" }

/-- Five placeholder rounds, standing for an already-finished deliberation. -/
def fiveRoundsC : List Round :=
  [ { round := 1, phase := "Initial Analysis", conversations := [] }
  , { round := 2, phase := "Challenge & Discussion", conversations := [] }
  , { round := 3, phase := "Risk Mitigation", conversations := [] }
  , { round := 4, phase := "Cross-functional Alignment", conversations := [] }
  , { round := 5, phase := "Final Synthesis", conversations := []
    , conclusion := some "After 5 rounds, the agents have reached a conclusion. Vote casting initiated." } ]

/-- A store where `P-200` is at `voting` with the five finished rounds. -/
def storeVotingC : Store :=
  { proposals := [votingProposalC]
  , deliberations := fun x => if x = "P-200" then some fiveRoundsC else none
  , votes := fun _ => none }

/-- The round-2 Finance message of the API generator run on the scenario
roster: it carries the first Finance evidence entry. -/
def msgC : Api.Msg :=
  { proposal := "P-100", agent_name := "Finance Agent", agent_domain := "Finance"
  , message := "ROI projections look promising, assuming a 12-month payback period."
  , round_number := 2
  , evidence := some "Current runway exceeds projections by 20% due to OPEX optimization."
  , source := some "Q1 Budget Analysis" }

/-! ## Helper lemmas -/

lemma get?_map_eq {α β : Type} (f : α → β) (l : List α) (i : Nat) :
    (l.map f).get? i = (l.get? i).map f := by
  induction l generalizing i with
  | nil => simp
  | cons a rest ih => cases i <;> simp [ih]

lemma mem_of_map_eq {α β γ : Type} {l : List α} {ps : List β}
    {f : α → γ} {g : β → γ} (h : l.map f = ps.map g) {c : α} (hc : c ∈ l) :
    ∃ p ∈ ps, f c = g p := by
  have hmem : f c ∈ ps.map g := h ▸ List.mem_map_of_mem f hc
  obtain ⟨p, hp, hpc⟩ := List.mem_map.mp hmem
  exact ⟨p, hp, hpc.symm⟩

lemma mem_activeNonCeo {a : Agent} {ags : List Agent} :
    a ∈ activeNonCeo ags ↔ a ∈ ags ∧ a.active = true ∧ a.domain ≠ "ceo" := by
  simp [activeNonCeo, List.mem_filter, and_assoc]

lemma recGet_nil {α : Type} (key : String) : recGet ([] : List (String × α)) key = none := rfl

lemma recGet_cons {α : Type} (e : String × α) (m : List (String × α)) (key : String) :
    recGet (e :: m) key =
      (recGet m key).or (if e.1 == key then some e.2 else none) := by
  simp only [recGet, List.reverse_cons, List.find?_append]
  cases h : (m.reverse.find? fun q => q.1 == key) with
  | none =>
    simp only [Option.map_none', Option.none_or, Option.or_none, List.find?]
    cases hk : e.1 == key <;> simp [List.find?, hk]
  | some v => simp [List.find?, Option.or]

lemma recGet_eq_none {α : Type} {m : List (String × α)} {key : String}
    (h : ∀ e ∈ m, e.1 ≠ key) : recGet m key = none := by
  simp only [recGet, Option.map_eq_none']
  rw [List.find?_eq_none]
  intro e he
  simpa using h e (List.mem_reverse.mp he)

lemma assignStances_fst (ps : List Participant) (u : Nat → Rat) (k : Nat) :
    ((assignStances ps u k).1).map Prod.fst = ps.map Participant.domain := by
  induction ps generalizing k with
  | nil => simp [assignStances]
  | cons p rest ih => simp [assignStances, ih]

lemma assignStances_snd (ps : List Participant) (u : Nat → Rat) (k : Nat) :
    (assignStances ps u k).2 = k + ps.length := by
  induction ps generalizing k with
  | nil => simp [assignStances]
  | cons p rest ih => simp [assignStances, ih]; omega

lemma statusOf_updateProposalStatus (ps : List Proposal) (pid : String) (st : Status)
    (h : (statusOf ps pid).isSome) :
    statusOf (updateProposalStatus ps pid st) pid = some st := by
  induction ps with
  | nil => simp [statusOf] at h
  | cons p rest ih =>
    by_cases hid : p.id = pid
    · simp [updateProposalStatus, statusOf, hid]
    · simp only [updateProposalStatus, List.map_cons, if_neg hid] at *
      simp only [statusOf, if_neg hid] at h ⊢
      exact ih h

lemma round1Convs_pairs (title : String) (ps : List Participant) (i : Nat)
    (u : Nat → Rat) (k : Nat) :
    ((Legacy.round1Convs title ps i u k).1).map (fun c => (c.agent, c.domain)) =
      ps.map (fun p => (p.name, p.domain)) := by
  induction ps generalizing i k with
  | nil => simp [Legacy.round1Convs]
  | cons p rest ih => simp [Legacy.round1Convs, Legacy.getMsg, ih]

lemma round1Convs_evidence (title : String) (ps : List Participant) (i : Nat)
    (u : Nat → Rat) (k : Nat) :
    ∀ c ∈ (Legacy.round1Convs title ps i u k).1, c.evidence = none := by
  induction ps generalizing i k with
  | nil => simp [Legacy.round1Convs]
  | cons p rest ih =>
    simp only [Legacy.round1Convs, Legacy.getMsg, List.mem_cons]
    rintro c (rfl | hc)
    · rfl
    · exact ih (i + 1) _ c hc

lemma round2Convs_pairs (title : String) (stances : List (String × Stance))
    (ps : List Participant) (i : Nat) (u : Nat → Rat) (k : Nat) :
    ((Legacy.round2Convs title stances ps i u k).1).map (fun c => (c.agent, c.domain)) =
      ps.map (fun p => (p.name, p.domain)) := by
  induction ps generalizing i k with
  | nil => simp [Legacy.round2Convs]
  | cons p rest ih =>
    simp only [Legacy.round2Convs]
    cases h : recGet stances p.domain with
    | none => simp [h, Legacy.getMsg, ih]
    | some st => cases st <;> simp [h, Legacy.getMsg, ih]

lemma round3Convs_pairs (ps : List Participant) (i : Nat) (u : Nat → Rat) (k : Nat) :
    ((Legacy.round3Convs ps i u k).1).map (fun c => (c.agent, c.domain)) =
      ps.map (fun p => (p.name, p.domain)) := by
  induction ps generalizing i k with
  | nil => simp [Legacy.round3Convs]
  | cons p rest ih => simp [Legacy.round3Convs, ih]

lemma round4Convs_pairs (ps : List Participant) (i : Nat) :
    (Legacy.round4Convs ps i).map (fun c => (c.agent, c.domain)) =
      ps.map (fun p => (p.name, p.domain)) := by
  induction ps generalizing i with
  | nil => simp [Legacy.round4Convs]
  | cons p rest ih => simp [Legacy.round4Convs, ih]

lemma round4Convs_evidence (ps : List Participant) (i : Nat) :
    ∀ c ∈ Legacy.round4Convs ps i, c.evidence = none := by
  induction ps generalizing i with
  | nil => simp [Legacy.round4Convs]
  | cons p rest ih =>
    simp only [Legacy.round4Convs, List.mem_cons]
    rintro c (rfl | hc)
    · rfl
    · exact ih (i + 1) c hc

lemma round5Convs_pairs (title : String) (stances : List (String × Stance))
    (ps : List Participant) (i : Nat) (u : Nat → Rat) (k : Nat) :
    ((Legacy.round5Convs title stances ps i u k).1).map (fun c => (c.agent, c.domain)) =
      ps.map (fun p => (p.name, p.domain)) := by
  induction ps generalizing i k with
  | nil => simp [Legacy.round5Convs]
  | cons p rest ih =>
    simp only [Legacy.round5Convs]
    cases h : recGet stances p.domain with
    | none => simp [h, Legacy.getMsg, ih]
    | some st => cases st <;> simp [h, Legacy.getMsg, ih]

lemma infoResponses_proj (query now : String) (aps : List Agent) (u : Nat → Rat)
    (k : Nat) :
    ((Legacy.infoResponses query now aps u k).1).map
        (fun c => (c.agent, c.domain, c.isResponse)) =
      aps.map (fun a => (a.name, a.domain, some true)) := by
  induction aps generalizing k with
  | nil => simp [Legacy.infoResponses]
  | cons a rest ih => simp [Legacy.infoResponses, ih]

lemma roundMsgs_proj (pid : String) (r : Nat) (ps : List Participant)
    (u : Nat → Rat) (k : Nat) :
    ((Api.roundMsgs pid r ps u k).1).map
        (fun m => (m.agent_name, m.agent_domain, m.is_conclusion)) =
      ps.map (fun p => (p.name, p.domain, false)) := by
  induction ps generalizing k with
  | nil => simp [Api.roundMsgs]
  | cons p rest ih =>
    simp only [Api.roundMsgs, Api.apiMessage]
    split <;> simp [ih]

lemma roundMsgs_rn (pid : String) (r : Nat) (ps : List Participant)
    (u : Nat → Rat) (k : Nat) :
    ∀ m ∈ (Api.roundMsgs pid r ps u k).1, m.round_number = r := by
  induction ps generalizing k with
  | nil => simp [Api.roundMsgs]
  | cons p rest ih =>
    simp only [Api.roundMsgs, Api.apiMessage]
    split <;>
      · simp only [List.mem_cons]
        rintro m (rfl | hm)
        · rfl
        · exact ih _ m hm

lemma roundMsgs_evidence (pid : String) (r : Nat) (ps : List Participant)
    (u : Nat → Rat) (k : Nat) (h2 : r ≠ 2) (h4 : r ≠ 4) :
    ∀ m ∈ (Api.roundMsgs pid r ps u k).1, m.evidence = none := by
  induction ps generalizing k with
  | nil => simp [Api.roundMsgs]
  | cons p rest ih =>
    simp only [Api.roundMsgs, Api.apiMessage, Api.selectEvidence]
    split <;>
      · simp only [List.mem_cons]
        rintro m (rfl | hm)
        · simp [h2, h4]
        · exact ih _ m hm

lemma roundsMsgs_rn_mem (pid : String) (rs : List Nat) (ps : List Participant)
    (u : Nat → Rat) (k : Nat) :
    ∀ m ∈ (Api.roundsMsgs pid rs ps u k).1, m.round_number ∈ rs := by
  induction rs generalizing k with
  | nil => simp [Api.roundsMsgs]
  | cons r rest ih =>
    simp only [Api.roundsMsgs, List.mem_append, List.mem_cons]
    rintro m (hm | rfl | hm)
    · exact Or.inl (roundMsgs_rn pid r ps u k m hm)
    · exact Or.inl (by simp [Api.conclusionMsg])
    · exact Or.inr (ih _ m hm)

lemma roundsMsgs_filter (pid : String) (ps : List Participant) (u : Nat → Rat)
    (rs : List Nat) (n : Nat) (hmem : n ∈ rs) (hnd : rs.Nodup) (k : Nat) :
    ∃ k2, ((Api.roundsMsgs pid rs ps u k).1).filter (fun m => m.round_number == n) =
      (Api.roundMsgs pid n ps u k2).1 ++ [Api.conclusionMsg pid n] := by
  induction rs generalizing k with
  | nil => cases hmem
  | cons r rest ih =>
    rw [List.nodup_cons] at hnd
    rcases List.mem_cons.mp hmem with rfl | hmem2
    · refine ⟨k, ?_⟩
      simp only [Api.roundsMsgs, List.filter_append, List.filter_cons]
      have hblock : ((Api.roundMsgs pid n ps u k).1).filter
          (fun m => m.round_number == n) = (Api.roundMsgs pid n ps u k).1 := by
        rw [List.filter_eq_self]
        intro m hm
        simp [roundMsgs_rn pid n ps u k m hm]
      have htail : (((Api.roundsMsgs pid rest ps u
          ((Api.roundMsgs pid n ps u k).2)).1).filter
          (fun m => m.round_number == n)) = [] := by
        rw [List.filter_eq_nil_iff]
        intro m hm
        have := roundsMsgs_rn_mem pid rest ps u _ m hm
        simp only [beq_iff_eq]
        intro hrn
        exact hnd.1 (hrn ▸ this)
      simp [hblock, htail, Api.conclusionMsg]
    · have hne : r ≠ n := fun h => hnd.1 (h ▸ hmem2)
      obtain ⟨k2, hk2⟩ := ih hmem2 hnd.2 ((Api.roundMsgs pid r ps u k).2)
      refine ⟨k2, ?_⟩
      simp only [Api.roundsMsgs, List.filter_append, List.filter_cons]
      have hblock : ((Api.roundMsgs pid r ps u k).1).filter
          (fun m => m.round_number == n) = [] := by
        rw [List.filter_eq_nil_iff]
        intro m hm
        simp [roundMsgs_rn pid r ps u k m hm, hne]
      have hconcl : ((Api.conclusionMsg pid r).round_number == n) = false := by
        simp [Api.conclusionMsg, hne]
      simp [hblock, hconcl, hk2]

lemma roundsMsgs_mem (pid : String) (rs : List Nat) (ps : List Participant)
    (u : Nat → Rat) (k : Nat) :
    ∀ m ∈ (Api.roundsMsgs pid rs ps u k).1,
      (∃ r k2, r ∈ rs ∧ m ∈ (Api.roundMsgs pid r ps u k2).1) ∨
      (∃ r ∈ rs, m = Api.conclusionMsg pid r) := by
  induction rs generalizing k with
  | nil => simp [Api.roundsMsgs]
  | cons r rest ih =>
    simp only [Api.roundsMsgs, List.mem_append, List.mem_cons]
    rintro m (hm | rfl | hm)
    · exact Or.inl ⟨r, k, Or.inl rfl, hm⟩
    · exact Or.inr ⟨r, Or.inl rfl, rfl⟩
    · rcases ih _ m hm with ⟨r2, k2, hr2, hm2⟩ | ⟨r2, hr2, hm2⟩
      · exact Or.inl ⟨r2, k2, Or.inr hr2, hm2⟩
      · exact Or.inr ⟨r2, Or.inr hr2, hm2⟩

lemma roundsMsgs_evidence (pid : String) (rs : List Nat) (ps : List Participant)
    (u : Nat → Rat) (k : Nat) :
    ∀ m ∈ (Api.roundsMsgs pid rs ps u k).1, m.evidence ≠ none →
      m.round_number = 2 ∨ m.round_number = 4 := by
  induction rs generalizing k with
  | nil => simp [Api.roundsMsgs]
  | cons r rest ih =>
    simp only [Api.roundsMsgs, List.mem_append, List.mem_cons]
    rintro m (hm | rfl | hm) hev
    · by_cases h2 : r = 2
      · exact Or.inl ((roundMsgs_rn pid r ps u k m hm).trans h2)
      · by_cases h4 : r = 4
        · exact Or.inr ((roundMsgs_rn pid r ps u k m hm).trans h4)
        · exact absurd (roundMsgs_evidence pid r ps u k h2 h4 m hm) hev
    · exact absurd rfl hev
    · exact ih _ m hm hev

lemma effectiveParticipants_of_ne {ags : List Agent} (h : activeNonCeo ags ≠ []) :
    Legacy.effectiveParticipants ags = (activeNonCeo ags).map toParticipant := by
  have he : (activeNonCeo ags).isEmpty = false := by
    cases hcase : activeNonCeo ags with
    | nil => exact absurd hcase h
    | cons a t => rfl
  simp [Legacy.effectiveParticipants, he]

lemma participantsOf_of_ne {ags : List Agent} (h : activeNonCeo ags ≠ []) :
    Api.participantsOf ags = (activeNonCeo ags).map toParticipant := by
  have he : (activeNonCeo ags).isEmpty = false := by
    cases hcase : activeNonCeo ags with
    | nil => exact absurd hcase h
    | cons a t => rfl
  simp [Api.participantsOf, he]

/-! ## Claim theorems -/

/-- C2: the claim says a request to approve or reject a proposal whose
deliberation has fewer than 5 rounds fails with `ActionNotAllowed` and leaves
the status unchanged, enforced by the transition operation itself.  The
transition operation `updateProposalStatus` has no guard at all: on the seeded
store whose proposal `P-003` is `deliberating` with `0` generated rounds, a
request to set `approved` is accepted and changes the status, and no error
path exists in the operation (it is a total function). -/
theorem approve_without_rounds_accepted :
    ((storeP3.deliberations "P-003").getD []).length = 0 ∧
    statusOf storeP3.proposals "P-003" = some Status.deliberating ∧
    statusOf (Legacy.updateStatusStore storeP3 "P-003" Status.approved).proposals
      "P-003" = some Status.approved := by
  decide

/-- C5: the claim says the terminal statuses `approved`/`rejected` accept no
further transitions.  `updateProposalStatus` applies any requested status
unconditionally: the approved seed proposal `P-001` is moved to `rejected` by
a single call. -/
theorem terminal_transition_accepted :
    statusOf storeP1.proposals "P-001" = some Status.approved ∧
    statusOf (Legacy.updateStatusStore storeP1 "P-001" Status.rejected).proposals
      "P-001" = some Status.rejected := by
  decide

/-- C10: `addProposal` initializes every new proposal with status
`deliberating`, risk tier `medium`, confidence `0.75` and proposer
`"<domain> Agent"`, while the caller-supplied title, domain, description and
impact summary are preserved verbatim; the new proposal is prepended. -/
theorem addProposal_defaults (s : Store) (agents : List Agent) (today : String)
    (d : Legacy.NewProposalData) (u : Nat → Rat) :
    ∃ p, (Legacy.addProposal s agents today d u).proposals = p :: s.proposals ∧
      p.title = d.title ∧ p.domain = d.domain ∧ p.description = d.description ∧
      p.status = Status.deliberating ∧ p.riskTier = RiskTier.medium ∧
      p.confidence = (3 : Rat)/4 ∧ p.proposer = some (d.domain ++ " Agent") ∧
      p.impactSummary = d.impactSummary := by
  refine ⟨Legacy.newProposalOf s.proposals today d,
    ?_, rfl, rfl, rfl, rfl, rfl, ?_, rfl, rfl⟩
  · simp only [Legacy.addProposal, Legacy.generateDeliberation]
    split <;> rfl
  · show mkRat 3 4 = (3 : Rat)/4
    rw [Rat.mkRat_eq_div]
    norm_num

/-- C9: `toggleAgent` changes only the `active` field of the agents whose
domain matches; every other field, every other agent, and the proposal store
(proposals, deliberations, votes) are untouched. -/
theorem toggleAgent_frame (st : AppState) (dom : String) :
    (toggleAgentApp st dom).store = st.store ∧
    (toggleAgent st.agents dom).length = st.agents.length ∧
    ∀ i a b, st.agents.get? i = some a →
      (toggleAgent st.agents dom).get? i = some b →
      b.name = a.name ∧ b.domain = a.domain ∧ b.description = a.description ∧
      b.weight = a.weight ∧ b.canExecute = a.canExecute ∧
      b.llmModel = a.llmModel ∧ b.ragEnabled = a.ragEnabled ∧
      b.knowledgeBase = a.knowledgeBase ∧
      b.active = (if a.domain = dom then !a.active else a.active) := by
  refine ⟨rfl, by simp [toggleAgent], ?_⟩
  intro i a b ha hb
  rw [toggleAgent, get?_map_eq, ha] at hb
  simp only [Option.map_some', Option.some.injEq] at hb
  subst hb
  by_cases hd : a.domain = dom <;> simp [hd]

/-- Witness for C9 at the seeded HR agent: toggling domain `hr` flips only its
`active` flag and leaves the proposal store untouched. -/
theorem toggleAgent_frame_witness :
    (toggleAgentApp appC "hr").store = appC.store ∧
    (toggleAgent appC.agents "hr").get? 0 = some hrToggledC ∧
    (hrToggledC.name = hrAgentC.name ∧ hrToggledC.domain = hrAgentC.domain ∧
     hrToggledC.description = hrAgentC.description ∧
     hrToggledC.weight = hrAgentC.weight ∧
     hrToggledC.canExecute = hrAgentC.canExecute ∧
     hrToggledC.llmModel = hrAgentC.llmModel ∧
     hrToggledC.ragEnabled = hrAgentC.ragEnabled ∧
     hrToggledC.knowledgeBase = hrAgentC.knowledgeBase ∧
     hrToggledC.active = (if hrAgentC.domain = "hr" then !hrAgentC.active
       else hrAgentC.active)) := by
  refine ⟨(toggleAgent_frame appC "hr").1, rfl, ?_⟩
  exact (toggleAgent_frame appC "hr").2.2 0 hrAgentC hrToggledC rfl rfl

/-- Counterexample for C1: in the `part_003` generator (run on the fallback
Finance/HR roster with the constant `0.7` stream), rounds are numbered 1..5
but only round 5 carries a conclusion - rounds 1 to 4 end with no conclusion
at all, refuting "every one of the 5 rounds ending with exactly one
system-authored conclusion message". -/
theorem legacy_rounds_lack_conclusions :
    cxRounds.map Round.round = [1, 2, 3, 4, 5] ∧
    cxRounds.map Round.conclusion =
      [none, none, none, none,
        some "After 5 rounds, the agents have reached a conclusion. Vote casting initiated."] := by
  decide

/-- C1 (amended): the API-backed `generateDeliberation` posts messages for
exactly the rounds 1..5; regrouped by round number, every round consists of
exactly one agent message per effective participant, in roster order, followed
by exactly one `Council Lead`/`system` conclusion message, and the proposal is
then moved to `voting`.  The `part_003` generator also produces rounds 1..5
with one message per participant in roster order, but attaches a conclusion
only to round 5 - rounds 1 to 4 end without one. -/
theorem deliberation_round_structure (agents : List Agent) (pid title : String)
    (stances : List (String × Stance)) (ps : List Participant) (u : Nat → Rat)
    (k : Nat) :
    (∀ m ∈ (Api.generateDeliberation agents pid u).1,
      m.round_number ∈ [1, 2, 3, 4, 5]) ∧
    (∀ n ∈ [1, 2, 3, 4, 5],
      (((Api.generateDeliberation agents pid u).1.filter
          (fun m => m.round_number == n)).map
          (fun m => (m.agent_name, m.agent_domain, m.is_conclusion))) =
        (Api.participantsOf agents).map (fun p => (p.name, p.domain, false)) ++
          [("Council Lead", "system", true)]) ∧
    Api.participantsOf agents ≠ [] ∧
    (Api.generateDeliberation agents pid u).2 = Status.voting ∧
    ((Legacy.generatedRounds title stances ps u k).1).map Round.round =
      [1, 2, 3, 4, 5] ∧
    (∀ rd ∈ (Legacy.generatedRounds title stances ps u k).1,
      rd.conversations.map (fun c => (c.agent, c.domain)) =
        ps.map (fun p => (p.name, p.domain))) ∧
    ((Legacy.generatedRounds title stances ps u k).1).map Round.conclusion =
      [none, none, none, none,
        some "After 5 rounds, the agents have reached a conclusion. Vote casting initiated."] := by
  rcases he : Api.roundsMsgs pid [1, 2, 3, 4, 5] (Api.participantsOf agents) u 0
    with ⟨msgs, kf⟩
  have h1m : (Api.roundsMsgs pid [1, 2, 3, 4, 5] (Api.participantsOf agents) u 0).1
      = msgs := by rw [he]
  have hgen : (Api.generateDeliberation agents pid u).1 = msgs := by
    simp [Api.generateDeliberation, he]
  have hst : (Api.generateDeliberation agents pid u).2 = Status.voting := by
    simp [Api.generateDeliberation, he]
  rcases h1c : Legacy.round1Convs title ps 0 u k with ⟨c1, k1⟩
  rcases h2c : Legacy.round2Convs title stances ps 0 u k1 with ⟨c2, k2⟩
  rcases h3c : Legacy.round3Convs ps 0 u k2 with ⟨c3, k3⟩
  rcases h5c : Legacy.round5Convs title stances ps 0 u k3 with ⟨c5, k5⟩
  have hg : (Legacy.generatedRounds title stances ps u k).1 =
      [ { round := 1, phase := "Initial Analysis", conversations := c1 }
      , { round := 2, phase := "Challenge & Discussion", conversations := c2 }
      , { round := 3, phase := "Risk Mitigation", conversations := c3 }
      , { round := 4, phase := "Cross-functional Alignment"
        , conversations := Legacy.round4Convs ps 0 }
      , { round := 5, phase := "Final Synthesis", conversations := c5
        , conclusion := some "After 5 rounds, the agents have reached a conclusion. Vote casting initiated." } ] := by
    simp [Legacy.generatedRounds, h1c, h2c, h3c, h5c]
  refine ⟨?_, ?_, ?_, hst, by rw [hg]; rfl, ?_, by rw [hg]; rfl⟩
  · rw [hgen]
    intro m hm
    exact roundsMsgs_rn_mem pid [1, 2, 3, 4, 5] (Api.participantsOf agents) u 0 m
      (h1m ▸ hm)
  · intro n hn
    obtain ⟨k2a, hf⟩ := roundsMsgs_filter pid (Api.participantsOf agents) u
      [1, 2, 3, 4, 5] n hn (by decide) 0
    rw [hgen, ← h1m, hf, List.map_append, roundMsgs_proj]
    simp [Api.conclusionMsg]
  · cases hcase : activeNonCeo agents with
    | nil => simp [Api.participantsOf, hcase, Api.fallbackParticipants]
    | cons a t => simp [Api.participantsOf, hcase]
  · rw [hg]
    intro rd hrd
    simp only [List.mem_cons, List.not_mem_nil, or_false] at hrd
    rcases hrd with rfl | rfl | rfl | rfl | rfl
    · have h := round1Convs_pairs title ps 0 u k
      rw [h1c] at h
      exact h
    · have h := round2Convs_pairs title stances ps 0 u k1
      rw [h2c] at h
      exact h
    · have h := round3Convs_pairs ps 0 u k2
      rw [h3c] at h
      exact h
    · exact round4Convs_pairs ps 0
    · have h := round5Convs_pairs title stances ps 0 u k3
      rw [h5c] at h
      exact h

/-- Witness for C1 at a concrete input: with an empty roster (so the fallback
participants speak) round 1 of the posted messages is the participant messages
in roster order followed by the single conclusion. -/
theorem deliberation_round_structure_witness :
    (1 ∈ [1, 2, 3, 4, 5]) ∧
    (((Api.generateDeliberation [] "P-100" uHalf).1.filter
        (fun m => m.round_number == 1)).map
        (fun m => (m.agent_name, m.agent_domain, m.is_conclusion))) =
      (Api.participantsOf []).map (fun p => (p.name, p.domain, false)) ++
        [("Council Lead", "system", true)] :=
  ⟨by decide,
    (deliberation_round_structure [] "P-100" "T" [] [] uHalf 0).2.1 1 (by decide)⟩

/-- Counterexample for C4: in the same `part_003` run, both round-3 messages
carry the evidence excerpt `Risk Mitigation Plan v1.0`, refuting "messages in
rounds 1, 3, and 5 never carry evidence". -/
theorem legacy_round3_evidence :
    (cxRounds.get? 2).map
        (fun r => (r.round, r.conversations.map (fun c => c.evidence))) =
      some (3, [some "Risk Mitigation Plan v1.0", some "Risk Mitigation Plan v1.0"]) := by
  decide

/-- C4 (amended): in the API-backed generator a message carries an evidence
excerpt only when its round number is 2 or 4; in the `part_003` generator
evidence can attach only in rounds 2, 3 and 5 - never in rounds 1 or 4. -/
theorem evidence_round_location :
    (∀ (agents : List Agent) (pid : String) (u : Nat → Rat),
      ∀ m ∈ (Api.generateDeliberation agents pid u).1,
        m.evidence ≠ none → m.round_number = 2 ∨ m.round_number = 4) ∧
    (∀ (title : String) (stances : List (String × Stance)) (ps : List Participant)
        (u : Nat → Rat) (k : Nat),
      ∀ rd ∈ (Legacy.generatedRounds title stances ps u k).1,
        ∀ c ∈ rd.conversations, c.evidence ≠ none →
          rd.round = 2 ∨ rd.round = 3 ∨ rd.round = 5) := by
  constructor
  · intro agents pid u m hm hev
    rcases he : Api.roundsMsgs pid [1, 2, 3, 4, 5] (Api.participantsOf agents) u 0
      with ⟨msgs, kf⟩
    have h1m : (Api.roundsMsgs pid [1, 2, 3, 4, 5]
        (Api.participantsOf agents) u 0).1 = msgs := by rw [he]
    have hgen : (Api.generateDeliberation agents pid u).1 = msgs := by
      simp [Api.generateDeliberation, he]
    rw [hgen] at hm
    exact roundsMsgs_evidence pid [1, 2, 3, 4, 5] (Api.participantsOf agents) u 0 m
      (h1m ▸ hm) hev
  · intro title stances ps u k rd hrd c hc hev
    rcases h1c : Legacy.round1Convs title ps 0 u k with ⟨c1, k1⟩
    rcases h2c : Legacy.round2Convs title stances ps 0 u k1 with ⟨c2, k2⟩
    rcases h3c : Legacy.round3Convs ps 0 u k2 with ⟨c3, k3⟩
    rcases h5c : Legacy.round5Convs title stances ps 0 u k3 with ⟨c5, k5⟩
    have hg : (Legacy.generatedRounds title stances ps u k).1 =
        [ { round := 1, phase := "Initial Analysis", conversations := c1 }
        , { round := 2, phase := "Challenge & Discussion", conversations := c2 }
        , { round := 3, phase := "Risk Mitigation", conversations := c3 }
        , { round := 4, phase := "Cross-functional Alignment"
          , conversations := Legacy.round4Convs ps 0 }
        , { round := 5, phase := "Final Synthesis", conversations := c5
          , conclusion := some "After 5 rounds, the agents have reached a conclusion. Vote casting initiated." } ] := by
      simp [Legacy.generatedRounds, h1c, h2c, h3c, h5c]
    rw [hg] at hrd
    simp only [List.mem_cons, List.not_mem_nil, or_false] at hrd
    rcases hrd with rfl | rfl | rfl | rfl | rfl
    · have h := round1Convs_evidence title ps 0 u k
      rw [h1c] at h
      exact absurd (h c hc) hev
    · exact Or.inl rfl
    · exact Or.inr (Or.inl rfl)
    · exact absurd (round4Convs_evidence ps 0 c hc) hev
    · exact Or.inr (Or.inr rfl)

/-- Witness for C4: the concrete round-2 Finance message of the API generator
carries evidence, and the theorem places it in round 2 or 4. -/
theorem evidence_round_location_witness :
    msgC ∈ (Api.generateDeliberation scenarioAgents "P-100" uHalf).1 ∧
    msgC.evidence ≠ none ∧ (msgC.round_number = 2 ∨ msgC.round_number = 4) :=
  ⟨by decide, by decide,
    evidence_round_location.1 scenarioAgents "P-100" uHalf msgC (by decide) (by decide)⟩

/-- C8: when at least one roster agent is active with a domain other than the
reserved `ceo` role, every non-conclusion message of both generators is
authored by an active, non-CEO roster agent (name and domain taken from it).
In particular inactive agents never speak. -/
theorem deliberation_authors_active_non_ceo (s : Store) (agents : List Agent)
    (p : Proposal) (pid : String) (u : Nat → Rat)
    (hne : activeNonCeo agents ≠ []) (hnew : s.deliberations p.id = none) :
    (∀ rs, (Legacy.generateDeliberation s agents p u).deliberations p.id = some rs →
      ∀ rd ∈ rs, ∀ c ∈ rd.conversations,
        ∃ a ∈ agents, a.active = true ∧ a.domain ≠ "ceo" ∧
          c.agent = a.name ∧ c.domain = a.domain) ∧
    (∀ m ∈ (Api.generateDeliberation agents pid u).1, m.is_conclusion = false →
      ∃ a ∈ agents, a.active = true ∧ a.domain ≠ "ceo" ∧
        m.agent_name = a.name ∧ m.agent_domain = a.domain) := by
  constructor
  · intro rs hrs rd hrd c hc
    set ps := Legacy.effectiveParticipants agents with hps
    rcases hsc : assignStances ps u 0 with ⟨stances, k1⟩
    rcases hgr : Legacy.generatedRounds p.title stances ps u k1 with ⟨rounds, k2⟩
    rcases hgv : Legacy.generateVotes agents stances u k2 with ⟨vs, k3⟩
    have hrs2 : rs = rounds := by
      rw [Legacy.generateDeliberation, hnew] at hrs
      simp only [← hps, hsc, hgr, hgv] at hrs
      have : storeSet s.deliberations p.id rounds p.id = some rs := hrs
      rw [storeSet, if_pos rfl] at this
      exact (Option.some.injEq _ _ ▸ this).symm
    rw [hrs2] at hrd
    have hpair : rd.conversations.map (fun c => (c.agent, c.domain)) =
        ps.map (fun q => (q.name, q.domain)) := by
      rcases h1c : Legacy.round1Convs p.title ps 0 u k1 with ⟨c1, k1a⟩
      rcases h2c : Legacy.round2Convs p.title stances ps 0 u k1a with ⟨c2, k2a⟩
      rcases h3c : Legacy.round3Convs ps 0 u k2a with ⟨c3, k3a⟩
      rcases h5c : Legacy.round5Convs p.title stances ps 0 u k3a with ⟨c5, k5a⟩
      have hg : rounds =
          [ { round := 1, phase := "Initial Analysis", conversations := c1 }
          , { round := 2, phase := "Challenge & Discussion", conversations := c2 }
          , { round := 3, phase := "Risk Mitigation", conversations := c3 }
          , { round := 4, phase := "Cross-functional Alignment"
            , conversations := Legacy.round4Convs ps 0 }
          , { round := 5, phase := "Final Synthesis", conversations := c5
            , conclusion := some "After 5 rounds, the agents have reached a conclusion. Vote casting initiated." } ] := by
        have := hgr.symm
        rw [Legacy.generatedRounds] at this
        simp only [h1c, h2c, h3c, h5c] at this
        exact congrArg Prod.fst this
      rw [hg] at hrd
      simp only [List.mem_cons, List.not_mem_nil, or_false] at hrd
      rcases hrd with rfl | rfl | rfl | rfl | rfl
      · have h := round1Convs_pairs p.title ps 0 u k1
        rw [h1c] at h
        exact h
      · have h := round2Convs_pairs p.title stances ps 0 u k1a
        rw [h2c] at h
        exact h
      · have h := round3Convs_pairs ps 0 u k2a
        rw [h3c] at h
        exact h
      · exact round4Convs_pairs ps 0
      · have h := round5Convs_pairs p.title stances ps 0 u k3a
        rw [h5c] at h
        exact h
    obtain ⟨q, hq, hqc⟩ := mem_of_map_eq hpair hc
    rw [hps, effectiveParticipants_of_ne hne] at hq
    obtain ⟨a, ha, rfl⟩ := List.mem_map.mp hq
    obtain ⟨hag, hact, hceo⟩ := mem_activeNonCeo.mp ha
    simp only [toParticipant, Prod.mk.injEq] at hqc
    exact ⟨a, hag, hact, hceo, hqc.1, hqc.2⟩
  · intro m hm hconc
    rcases he : Api.roundsMsgs pid [1, 2, 3, 4, 5] (Api.participantsOf agents) u 0
      with ⟨msgs, kf⟩
    have h1m : (Api.roundsMsgs pid [1, 2, 3, 4, 5]
        (Api.participantsOf agents) u 0).1 = msgs := by rw [he]
    have hgen : (Api.generateDeliberation agents pid u).1 = msgs := by
      simp [Api.generateDeliberation, he]
    rw [hgen] at hm
    rcases roundsMsgs_mem pid [1, 2, 3, 4, 5] (Api.participantsOf agents) u 0 m
        (h1m ▸ hm) with ⟨r, k2, hr, hblock⟩ | ⟨r, hr, rfl⟩
    · have hproj := roundMsgs_proj pid r (Api.participantsOf agents) u k2
      obtain ⟨q, hq, hqc⟩ := mem_of_map_eq hproj hblock
      rw [participantsOf_of_ne hne] at hq
      obtain ⟨a, ha, rfl⟩ := List.mem_map.mp hq
      obtain ⟨hag, hact, hceo⟩ := mem_activeNonCeo.mp ha
      simp only [toParticipant, Prod.mk.injEq] at hqc
      exact ⟨a, hag, hact, hceo, hqc.1, hqc.2.1⟩
    · exact absurd hconc (by simp [Api.conclusionMsg])

/-- Witness for C8 at the spec scenario roster (Finance active, HR active, Ops
inactive): both generators speak only through Finance and HR. -/
theorem deliberation_authors_witness :
    (∀ rs, (Legacy.generateDeliberation emptyStore scenarioAgents cxProposal uHalf).deliberations
        cxProposal.id = some rs →
      ∀ rd ∈ rs, ∀ c ∈ rd.conversations,
        ∃ a ∈ scenarioAgents, a.active = true ∧ a.domain ≠ "ceo" ∧
          c.agent = a.name ∧ c.domain = a.domain) ∧
    (∀ m ∈ (Api.generateDeliberation scenarioAgents "P-100" uHalf).1,
      m.is_conclusion = false →
      ∃ a ∈ scenarioAgents, a.active = true ∧ a.domain ≠ "ceo" ∧
        m.agent_name = a.name ∧ m.agent_domain = a.domain) :=
  deliberation_authors_active_non_ceo emptyStore scenarioAgents cxProposal "P-100"
    uHalf (by decide) rfl

lemma assignStances_lookup (ps : List Participant) (u : Nat → Rat) (k : Nat)
    (hnd : (ps.map Participant.domain).Nodup) :
    ∀ j q, ps.get? j = some q →
      recGet (assignStances ps u k).1 q.domain = some (stanceOfDraw (u (k + j))) := by
  induction ps generalizing k with
  | nil => intro j q hj; cases j <;> cases hj
  | cons p rest ih =>
    simp only [List.map_cons, List.nodup_cons] at hnd
    intro j q hj
    have hunfold : (assignStances (p :: rest) u k).1 =
        (p.domain, stanceOfDraw (u k)) :: (assignStances rest u (k + 1)).1 := by
      simp [assignStances]
    rw [hunfold]
    cases j with
    | zero =>
      simp only [List.get?] at hj
      obtain rfl : q = p := by injection hj with h; exact h.symm
      rw [recGet_cons]
      have hnone : recGet (assignStances rest u (k + 1)).1 q.domain = none := by
        apply recGet_eq_none
        intro e he hcontra
        apply hnd.1
        have hfst : e.1 ∈ ((assignStances rest u (k + 1)).1).map Prod.fst :=
          List.mem_map_of_mem Prod.fst he
        rw [assignStances_fst] at hfst
        rw [← hcontra]
        exact hfst
      rw [hnone]
      simp
    | succ j2 =>
      simp only [List.get?] at hj
      rw [recGet_cons, ih (k + 1) hnd.2 j2 q hj]
      simp only [Option.or_some]
      have : k + 1 + j2 = k + (j2 + 1) := by omega
      rw [this]

/-- C6: the stance assignment gives each participant domain exactly one stance
from its own uniform draw - approve iff the draw exceeds `0.4`, reject iff it
lies in `(0.2, 0.4]`, abstain otherwise (so `60/20/20` under a uniform draw),
independently per participant (the i-th participant consumes the i-th draw);
an empty participant list yields an empty mapping. -/
theorem assignStances_spec :
    (∀ (u : Nat → Rat) (k : Nat), assignStances [] u k = ([], k)) ∧
    (∀ r : Rat,
      (stanceOfDraw r = Stance.approve ↔ (2 : Rat)/5 < r) ∧
      (stanceOfDraw r = Stance.reject ↔ (1 : Rat)/5 < r ∧ r ≤ (2 : Rat)/5) ∧
      (stanceOfDraw r = Stance.abstain ↔ r ≤ (1 : Rat)/5)) ∧
    (∀ (ps : List Participant) (u : Nat → Rat) (k : Nat),
      (assignStances ps u k).2 = k + ps.length) ∧
    (∀ (ps : List Participant) (u : Nat → Rat) (k : Nat),
      (ps.map Participant.domain).Nodup →
      ∀ j q, ps.get? j = some q →
        recGet (assignStances ps u k).1 q.domain =
          some (stanceOfDraw (u (k + j)))) := by
  have h25 : mkRat 2 5 = (2 : Rat)/5 := by rw [Rat.mkRat_eq_div]; norm_num
  have h15 : mkRat 1 5 = (1 : Rat)/5 := by rw [Rat.mkRat_eq_div]; norm_num
  refine ⟨fun u k => rfl, ?_, assignStances_snd, assignStances_lookup⟩
  intro r
  simp only [stanceOfDraw, h25, h15]
  by_cases h1 : (2 : Rat)/5 < r
  · rw [if_pos h1]
    exact ⟨iff_of_true rfl h1,
      iff_of_false (by decide) (fun hc => absurd h1 (not_lt.mpr hc.2)),
      iff_of_false (by decide)
        (fun hle => absurd h1 (not_lt.mpr (hle.trans (by norm_num))))⟩
  · rw [if_neg h1]
    by_cases h2 : (1 : Rat)/5 < r
    · rw [if_pos h2]
      exact ⟨iff_of_false (by decide) h1,
        iff_of_true rfl ⟨h2, not_lt.mp h1⟩,
        iff_of_false (by decide) (not_le.mpr h2)⟩
    · rw [if_neg h2]
      exact ⟨iff_of_false (by decide) h1,
        iff_of_false (by decide) (fun hc => absurd hc.1 h2),
        iff_of_true rfl (not_lt.mp h2)⟩

/-- Witness for C6: on the distinct Finance/HR roster with the constant `0.5`
stream, the HR participant (index 1) receives the stance classified from its
own draw. -/
theorem assignStances_spec_witness :
    (([ Participant.mk "Finance Agent" "Finance"
      , Participant.mk "HR Agent" "HR" ].map Participant.domain).Nodup) ∧
    recGet (assignStances
        [ Participant.mk "Finance Agent" "Finance"
        , Participant.mk "HR Agent" "HR" ] uHalf 0).1
        (Participant.mk "HR Agent" "HR").domain =
      some (stanceOfDraw (uHalf (0 + 1))) :=
  ⟨by decide,
    assignStances_spec.2.2.2
      [ Participant.mk "Finance Agent" "Finance"
      , Participant.mk "HR Agent" "HR" ] uHalf 0 (by decide) 1
      (Participant.mk "HR Agent" "HR") rfl⟩

lemma generateVotes_length (ags : List Agent) (stances : List (String × Stance))
    (u : Nat → Rat) (k : Nat) :
    ((Legacy.generateVotes ags stances u k).1).length = ags.length := by
  induction ags generalizing k with
  | nil => simp [Legacy.generateVotes]
  | cons a rest ih => simp [Legacy.generateVotes, ih]

lemma generateVotes_get (ags : List Agent) (stances : List (String × Stance))
    (u : Nat → Rat) (k : Nat) :
    ∀ j a, ags.get? j = some a →
      ∃ v, ((Legacy.generateVotes ags stances u k).1).get? j = some v ∧
        v.agent = a.name ∧ v.domain = a.domain ∧
        v.vote = (recGet stances a.domain).getD Stance.abstain ∧
        v.rationale = Legacy.voteRationale v.vote a.domain ∧
        v.confidence = mkRat 3 5 + u (k + j) * mkRat 7 20 := by
  induction ags generalizing k with
  | nil => intro j a hj; cases j <;> cases hj
  | cons a0 rest ih =>
    intro j a hj
    have hunfold : (Legacy.generateVotes (a0 :: rest) stances u k).1 =
        { agent := a0.name, domain := a0.domain
        , vote := (recGet stances a0.domain).getD Stance.abstain
        , rationale := Legacy.voteRationale
            ((recGet stances a0.domain).getD Stance.abstain) a0.domain
        , confidence := mkRat 3 5 + u k * mkRat 7 20 } ::
          (Legacy.generateVotes rest stances u (k + 1)).1 := by
      simp [Legacy.generateVotes]
    rw [hunfold]
    cases j with
    | zero =>
      simp only [List.get?] at hj
      obtain rfl : a = a0 := by injection hj with h; exact h.symm
      exact ⟨_, rfl, rfl, rfl, rfl, rfl, by simp⟩
    | succ j2 =>
      simp only [List.get?] at hj
      obtain ⟨v, hv, h1, h2, h3, h4, h5⟩ := ih (k + 1) j2 a hj
      refine ⟨v, hv, h1, h2, h3, h4, ?_⟩
      rw [h5]
      have : k + 1 + j2 = k + (j2 + 1) := by omega
      rw [this]

/-- C3 (amended): `generateVotes` produces exactly one vote per entry of the
agent list it is handed (its caller passes the entire roster - see the
counterexample for a vote given to an inactive agent); each vote equals the
agent's assigned stance, defaulting to `abstain` when the stance record has no
entry for the domain, and is one of approve/reject/abstain; the approve and
reject rationales are stance-keyed sentences interpolating the agent's domain
while the abstain rationale is a fixed domain-independent sentence; the
confidence is `0.6 + r * 0.35` for a fresh draw `r`, hence in `[0.6, 0.95)`
and in particular in `[0, 1]`. -/
theorem generateVotes_spec (ags : List Agent) (stances : List (String × Stance))
    (u : Nat → Rat) (k : Nat) (hu : ∀ n, 0 ≤ u n ∧ u n < 1) :
    ((Legacy.generateVotes ags stances u k).1).length = ags.length ∧
    ∀ j a, ags.get? j = some a →
      ∃ v, ((Legacy.generateVotes ags stances u k).1).get? j = some v ∧
        v.agent = a.name ∧ v.domain = a.domain ∧
        v.vote = (recGet stances a.domain).getD Stance.abstain ∧
        (v.vote = Stance.approve ∨ v.vote = Stance.reject ∨
          v.vote = Stance.abstain) ∧
        (v.vote = Stance.approve →
          v.rationale = "Approved based on positive impact to " ++ a.domain ++ " metrics.") ∧
        (v.vote = Stance.reject →
          v.rationale = "Rejected due to excessive risk/cost in " ++ a.domain ++ " area.") ∧
        (v.vote = Stance.abstain →
          v.rationale = "Abstained due to lack of domain overlap or insufficient data.") ∧
        (3 : Rat)/5 ≤ v.confidence ∧ v.confidence < (19 : Rat)/20 ∧
        0 ≤ v.confidence ∧ v.confidence ≤ 1 := by
  refine ⟨generateVotes_length ags stances u k, ?_⟩
  intro j a hj
  obtain ⟨v, hv, h1, h2, h3, h4, h5⟩ := generateVotes_get ags stances u k j a hj
  have h35 : mkRat 3 5 = (3 : Rat)/5 := by rw [Rat.mkRat_eq_div]; norm_num
  have h720 : mkRat 7 20 = (7 : Rat)/20 := by rw [Rat.mkRat_eq_div]; norm_num
  rw [h35, h720] at h5
  obtain ⟨hc0, hc1⟩ := hu (k + j)
  have hm0 : 0 ≤ u (k + j) * ((7 : Rat)/20) := mul_nonneg hc0 (by norm_num)
  have hm1 : u (k + j) * ((7 : Rat)/20) < 1 * ((7 : Rat)/20) :=
    mul_lt_mul_of_pos_right hc1 (by norm_num)
  refine ⟨v, hv, h1, h2, h3, ?_, ?_, ?_, ?_, ?_, ?_, ?_, ?_⟩
  · cases v.vote
    · exact Or.inl rfl
    · exact Or.inr (Or.inl rfl)
    · exact Or.inr (Or.inr rfl)
  · intro hvv
    rw [h4, hvv]
    rfl
  · intro hvv
    rw [h4, hvv]
    rfl
  · intro hvv
    rw [h4, hvv]
    rfl
  · rw [h5]; linarith
  · rw [h5]; linarith
  · rw [h5]; linarith
  · rw [h5]; linarith

/-- Counterexample for C3: on the seeded roster fragment, the inactive Sales
agent also receives a vote (the caller hands the aggregator the whole roster,
refuting "exactly one Vote per active participant"), and the abstain vote of
the Finance agent carries the fixed rationale that never mentions the agent's
domain, refuting "rationale ... referencing the agent's domain". -/
theorem vote_aggregation_counterexample :
    salesAgentC.active = false ∧
    ((Legacy.generateVotes [finAgentC, salesAgentC]
        [("finance", Stance.abstain)] uZero 0).1).length = 2 ∧
    (((Legacy.generateVotes [finAgentC, salesAgentC]
        [("finance", Stance.abstain)] uZero 0).1).get? 1).map
        (fun v => (v.agent, v.domain)) = some ("Sales Agent", "sales") ∧
    (((Legacy.generateVotes [finAgentC, salesAgentC]
        [("finance", Stance.abstain)] uZero 0).1).get? 0).map
        (fun v => (v.vote, v.rationale, mentionsSub v.rationale "finance")) =
      some (Stance.abstain,
        "Abstained due to lack of domain overlap or insufficient data.", false) := by
  decide

/-- Witness for C3: one active Finance agent with an assigned approve stance
and the all-zero stream. -/
theorem generateVotes_spec_witness :
    (∀ n, 0 ≤ uZero n ∧ uZero n < 1) ∧
    ((Legacy.generateVotes [finAgentC] [("finance", Stance.approve)] uZero 0).1).length = 1 ∧
    (∃ v, ((Legacy.generateVotes [finAgentC] [("finance", Stance.approve)] uZero 0).1).get? 0 = some v ∧
      v.agent = finAgentC.name ∧ v.domain = finAgentC.domain ∧
      v.vote = (recGet [("finance", Stance.approve)] finAgentC.domain).getD Stance.abstain ∧
      (v.vote = Stance.approve ∨ v.vote = Stance.reject ∨ v.vote = Stance.abstain) ∧
      (v.vote = Stance.approve →
        v.rationale = "Approved based on positive impact to " ++ finAgentC.domain ++ " metrics.") ∧
      (v.vote = Stance.reject →
        v.rationale = "Rejected due to excessive risk/cost in " ++ finAgentC.domain ++ " area.") ∧
      (v.vote = Stance.abstain →
        v.rationale = "Abstained due to lack of domain overlap or insufficient data.") ∧
      (3 : Rat)/5 ≤ v.confidence ∧ v.confidence < (19 : Rat)/20 ∧
      0 ≤ v.confidence ∧ v.confidence ≤ 1) := by
  have hu : ∀ n, 0 ≤ uZero n ∧ uZero n < 1 := by
    intro n
    have hz : uZero n = 0 := by rw [uZero, Rat.mkRat_eq_div]; norm_num
    rw [hz]
    norm_num
  exact ⟨hu,
    (generateVotes_spec [finAgentC] [("finance", Stance.approve)] uZero 0 hu).1,
    (generateVotes_spec [finAgentC] [("finance", Stance.approve)] uZero 0 hu).2
      0 finAgentC rfl⟩

lemma get?_concat_len {α : Type} (l : List α) (a : α) :
    (l ++ [a]).get? l.length = some a := by
  induction l with
  | nil => rfl
  | cons x rest ih => simp only [List.cons_append, List.length_cons, List.get?]; exact ih

lemma take_append_len {α : Type} (l m : List α) : (l ++ m).take l.length = l := by
  induction l with
  | nil => rfl
  | cons x rest ih =>
    simp only [List.cons_append, List.length_cons, List.take]
    exact congrArg (List.cons x) ih

/-- C7: on a proposal at `voting` whose deliberation has exactly 5 rounds and
with a non-empty active non-CEO roster, `addInfoRequest` appends exactly one
round numbered 6, consisting of one admin challenge message, one response per
active participant (in roster order, flagged as responses) and one conclusion,
and the proposal's status is `voting` afterwards - in both the `part_003`
variant and the API variant. -/
theorem addInfoRequest_round_trip (s : Store) (agents : List Agent)
    (pid query now : String) (u : Nat → Rat) (k : Nat) (rs : List Round)
    (h1 : s.deliberations pid = some rs) (h2 : rs.length = 5)
    (h3 : statusOf s.proposals pid = some Status.voting)
    (h4 : activeNonCeo agents ≠ []) :
    (∃ rs2, (Legacy.addInfoRequest s agents pid query now u k).deliberations pid =
        some rs2 ∧
      rs2.length = 6 ∧ rs2.take 5 = rs ∧
      ∃ rd, rs2.get? 5 = some rd ∧ rd.round = 6 ∧
        rd.phase = "Clarification & Re-evaluation" ∧
        rd.conversations.map (fun c => (c.agent, c.domain)) =
          ("User (Admin)", "admin") ::
            (activeNonCeo agents).map (fun a => (a.name, a.domain)) ∧
        (rd.conversations.get? 0).map (fun c => (c.isChallenge, c.message)) =
          some (some true, "REQUEST FOR INFO: " ++ query) ∧
        (∀ c ∈ rd.conversations.tail, c.isResponse = some true) ∧
        rd.conclusion = some ("The council has reviewed the additional information regarding \"" ++ query ++ "\". Proceeding to final vote.")) ∧
    statusOf (Legacy.addInfoRequest s agents pid query now u k).proposals pid =
      some Status.voting ∧
    (Api.addInfoRequest rs.length agents pid query).2 = Status.voting ∧
    ((Api.addInfoRequest rs.length agents pid query).1).map
        (fun m => (m.agent_name, m.agent_domain, m.round_number,
          m.is_conclusion, m.isChallenge, m.isResponse)) =
      ("User (Admin)", "admin", 6, false, true, false) ::
        (activeNonCeo agents).map (fun a => (a.name, a.domain, 6, false, false, true)) ++
        [("Council Lead", "system", 6, true, false, false)] := by
  rcases hir : Legacy.infoResponses query now (activeNonCeo agents) u k
    with ⟨resp, kr⟩
  have htriple : resp.map (fun c => (c.agent, c.domain, c.isResponse)) =
      (activeNonCeo agents).map (fun a => (a.name, a.domain, some true)) := by
    have h := infoResponses_proj query now (activeNonCeo agents) u k
    rw [hir] at h
    exact h
  have hdel : (Legacy.addInfoRequest s agents pid query now u k).deliberations pid =
      some (rs ++
        [ { round := rs.length + 1, phase := "Clarification & Re-evaluation"
          , conversations :=
              { agent := "User (Admin)", domain := "admin"
              , message := "REQUEST FOR INFO: " ++ query, timestamp := now
              , isChallenge := some true } :: resp
          , conclusion := some ("The council has reviewed the additional information regarding \"" ++ query ++ "\". Proceeding to final vote.") } ]) := by
    simp [Legacy.addInfoRequest, h1, hir, Legacy.updateStatusStore, storeSet]
  have he : (activeNonCeo agents).isEmpty = false := by
    cases hcase : activeNonCeo agents with
    | nil => exact absurd hcase h4
    | cons a t => rfl
  refine ⟨⟨_, hdel, ?_, ?_, ?_⟩, ?_, ?_, ?_⟩
  · have hlenresp : resp.length = (activeNonCeo agents).length := by
      have := congrArg List.length htriple
      simpa using this
    simp [h2]
  · rw [← h2]
    exact take_append_len rs _
  · refine ⟨(⟨rs.length + 1, "Clarification & Re-evaluation",
        (⟨"User (Admin)", "admin", "REQUEST FOR INFO: " ++ query, now,
          some true, none, none⟩ : Conversation) :: resp,
        some ("The council has reviewed the additional information regarding \"" ++ query ++ "\". Proceeding to final vote.")⟩ : Round),
      h2 ▸ get?_concat_len rs _, by simp [h2], rfl, ?_, rfl, ?_, rfl⟩
    · show (_ :: resp).map (fun c => (c.agent, c.domain)) = _
      have hpair := congrArg
        (List.map (fun t : String × String × Option Bool => (t.1, t.2.1))) htriple
      simp only [List.map_map] at hpair
      simp only [List.map_cons]
      refine congrArg (List.cons _) ?_
      convert hpair using 1
    · intro c hc
      simp only [List.tail_cons] at hc
      obtain ⟨a, ha, hac⟩ := mem_of_map_eq htriple hc
      exact congrArg (fun t : String × String × Option Bool => t.2.2) hac
  · have hsome : (statusOf s.proposals pid).isSome := by rw [h3]; rfl
    have : (Legacy.addInfoRequest s agents pid query now u k).proposals =
        updateProposalStatus s.proposals pid Status.voting := by
      simp [Legacy.addInfoRequest, Legacy.updateStatusStore]
    rw [this]
    exact statusOf_updateProposalStatus s.proposals pid Status.voting hsome
  · simp [Api.addInfoRequest]
  · simp [Api.addInfoRequest, he, List.map_map, h2, toParticipant, Function.comp]

/-- Witness for C7: the concrete voting proposal `P-200` with five finished
rounds and the scenario roster. -/
theorem addInfoRequest_round_trip_witness :
    (∃ rs2, (Legacy.addInfoRequest storeVotingC scenarioAgents "P-200" "clarify X"
        "10:05 AM" uHalf 0).deliberations "P-200" = some rs2 ∧ rs2.length = 6) ∧
    statusOf (Legacy.addInfoRequest storeVotingC scenarioAgents "P-200" "clarify X"
        "10:05 AM" uHalf 0).proposals "P-200" = some Status.voting := by
  obtain ⟨⟨rs2, hrs2, hlen, -⟩, hstat, -, -⟩ :=
    addInfoRequest_round_trip storeVotingC scenarioAgents "P-200" "clarify X"
      "10:05 AM" uHalf 0 fiveRoundsC (by decide) (by decide) (by decide) (by decide)
  exact ⟨⟨rs2, hrs2, hlen⟩, hstat⟩

end Boardroom
